import Mathlib

/-! Boot control of the SPL firmware updater.

A shallow embedding of `src/spl/DcBootControl.h` and `src/spl/DcBootControl.cpp`:
the bank-info value objects (`DcCodeBankInfo`, `DcBootCodeInfo`) and the protocol
operations of `DcBootControl`.

The MIDI message container (`DcMidiData`), the pattern trigger (`DcMidiTrigger`,
`DcAutoTrigger`), the device identity (`DcMidiDevIdent`, `DcDeviceDetails`) and the
outbound port (`DcMidiOut`) are used by these files but are not part of them; the
definitions that stand for them say so in their doc comment.
-/

namespace Spl

/-! ## Messages and patterns -/

/-- One unsigned 8-bit value of a SysEx frame. -/
abbrev Byte := Fin 256

/-- Modelled from the spec: the class DcMidiData (its header DcMidiData.h is not among the
sources) is "an ordered sequence of unsigned 8-bit values; may be empty", with value-based
equality. -/
abbrev DcMidiData := List Byte

/-- Value of a hexadecimal digit character, if it is one. -/
def hexVal (c : Char) : Option Nat :=
  if c.toNat ≥ 48 ∧ c.toNat ≤ 57 then some (c.toNat - 48)
  else if c.toNat ≥ 65 ∧ c.toNat ≤ 70 then some (c.toNat - 55)
  else if c.toNat ≥ 97 ∧ c.toNat ≤ 102 then some (c.toNat - 87)
  else none

/-- The hexadecimal digits of a text, in order, everything else skipped. -/
def hexDigits : List Char → List Nat
  | [] => []
  | c :: cs =>
    match hexVal c with
    | some v => v :: hexDigits cs
    | none => hexDigits cs

/-- Pairs of hexadecimal digits packed into bytes, high digit first; a trailing single digit
is dropped. -/
def packBytes : List Nat → DcMidiData
  | hi :: lo :: rest => Fin.ofNat (16 * hi + lo) :: packBytes rest
  | _ => []

/-- Modelled from the spec: construction of a DcMidiData from hex text ("constructed from a
literal/parsed hex string", "tolerant of separator whitespace"), as done implicitly wherever
the source passes a string literal such as "F0 00 01 55 42 11 F7" for a message. -/
def DcMidiData.ofHex (s : String) : DcMidiData :=
  packBytes (hexDigits s.data)

/-- One position of a pattern text: a hexadecimal digit, the wildcard `.`, a bracket group of
alternatives, or a character that matches nothing. -/
inductive PTok where
  | digit (v : Nat)
  | any
  | oneOf (vs : List Nat)
  | never
  deriving DecidableEq, Repr

/-- Modelled from the spec: the pattern grammar of DcMidiData::match and DcMidiTrigger (§3:
".. matches any single byte; a bracket group [xy] matches any one of the listed hex
nibble/byte alternatives at that position; all other tokens are exact byte values"), read one
hexadecimal digit position at a time; blanks separate bytes and carry no meaning. The first
argument holds the alternatives collected so far while inside a bracket group. -/
def parsePattern : Option (List Nat) → List Char → List PTok
  | none, [] => []
  | some g, [] => [PTok.oneOf g]
  | none, c :: cs =>
    if c = ' ' then parsePattern none cs
    else if c = '.' then PTok.any :: parsePattern none cs
    else if c = '[' then parsePattern (some []) cs
    else
      match hexVal c with
      | some v => PTok.digit v :: parsePattern none cs
      | none => PTok.never :: parsePattern none cs
  | some g, c :: cs =>
    if c = ']' then PTok.oneOf g :: parsePattern none cs
    else
      match hexVal c with
      | some v => parsePattern (some (g ++ [v])) cs
      | none => parsePattern (some g) cs

/-- A pattern, as the list of its digit positions. -/
abbrev Pattern := List PTok

/-- The pattern written by a pattern text of the source. -/
def pat (s : String) : Pattern := parsePattern none s.data

/-- Whether one hexadecimal digit satisfies one pattern position. -/
def PTok.ok : PTok → Nat → Bool
  | .digit v, n => v == n
  | .any, _ => true
  | .oneOf vs, n => vs.contains n
  | .never, _ => false

/-- The hexadecimal digits of a message, two per byte, high digit first. -/
def nibbles : DcMidiData → List Nat
  | [] => []
  | b :: bs => b.val / 16 :: b.val % 16 :: nibbles bs

/-- Leading-positions comparison: every pattern position must be present in the message and
satisfied; what follows the last pattern position is not looked at. -/
def matchNibbles : Pattern → List Nat → Bool
  | [], _ => true
  | _ :: _, [] => false
  | t :: ts, n :: ns => t.ok n && matchNibbles ts ns

/-- Modelled from the spec: DcMidiData::match (§3, §4.1, §8), "true iff every pattern position
is satisfied against the corresponding byte"; "a Message longer than the pattern may still
match"; a message shorter than the pattern does not. -/
def DcMidiData.match (md : DcMidiData) (p : Pattern) : Bool :=
  matchNibbles p (nibbles md)

/-- Modelled from the spec: DcMidiData::toInt(offset, 1) and DcMidiData::toInt(offset, 1, 0),
the only two forms the sources call: the value of the single byte at `offset`. Both call sites
are guarded so that `offset` is inside the message; outside it the model gives 0. -/
def DcMidiData.toInt (md : DcMidiData) (offset : Nat) : Int :=
  ((md.getD offset 0).val : Int)

/-- Modelled from the spec: DcMidiData::toAsciiString(offset, length), "interprets a byte range
as printable ASCII". -/
def DcMidiData.toAsciiString (md : DcMidiData) (offset length : Nat) : String :=
  String.mk (((md.drop offset).take length).map (fun b => Char.ofNat b.val))

/-! ## Machine integers -/

/-- A C++ `int` result: two's-complement wrap-around into the signed 32-bit range. -/
def wrapInt32 (x : Int) : Int :=
  (x + 2147483648) % 4294967296 - 2147483648

/-- Conversion of an `int` to `quint32`. -/
def toQuint32 (x : Int) : Nat :=
  (x % 4294967296).toNat

/-! ## Response and command texts of DcBootControl.h -/

def CMD_ENABLE_RECOVERY : String := "F0 00 01 55 42 11 F7"
def CMD_GET_BANK0_INFO : String := "F0 00 01 55 42 08 F7"
def CMD_GET_BANK1_INFO : String := "F0 00 01 55 42 09 F7"
def RESPONCE_BANK_INFO_INVALID : String := "F0 00 01 55 42 0[89] 02 F7"
def RESPONCE_BANK_INFO : String :=
  "F0 00 01 55 42 0[89] .. .. .. .. .. .. .. .. .. .. .. .. .. F7"
def RESPONCE_BANK_INFO_ANY : String := "F0 00 01 55 42 0[89] .. .."
def RESPONCE_ENABLE_RECOVERY_ANY : String := "F0 00 01 55 42 11 .. F7"
def RESPONCE_ENABLE_RECOVERY_ACK : String := "F0 00 01 55 42 11 00 F7"
def RESPONCE_ENABLE_RECOVERY_REJECTED : String := "F0 00 01 55 42 11 01 F7"
def RESPONCE_ENABLE_RECOVERY_FAILED : String := "F0 00 01 55 42 11 02 F7"
def DCBC_ACTIVATE_BANK0 : String := "F0 00 01 55 42 02 F7"
def DCBC_ACTIVATE_BANK0_SUCCESS : String := "F0 00 01 55 42 02 00 F7"
def DCBC_ACTIVATE_BANK1 : String := "F0 00 01 55 42 03 F7"
def DCBC_ACTIVATE_BANK1_SUCCESS : String := "F0 00 01 55 42 03 00 F7"
def DCBC_DEACTIVATE_BANK0 : String := "F0 00 01 55 42 04 F7"
def DCBC_DEACTIVATE_BANK0_SUCCESS : String := "F0 00 01 55 42 04 00 F7"
def DCBC_DEACTIVATE_BANK1 : String := "F0 00 01 55 42 05 F7"
def DCBC_DEACTIVATE_BANK1_SUCCESS : String := "F0 00 01 55 42 05 00 F7"
def DCBC_READ_PID_FID : String := "F0 00 01 55 42 0D 02 00 0F 0F 0F 0F 08 F7"
def RESPONCE_READ_PID_FID : String :=
  "F0 00 01 55 42 0D 02 00 0F 0F 0F 0F 08 0%1 0%2 .. .. F7"

/-! ## DcCodeBankInfo and DcBootCodeInfo -/

/-- The class DcCodeBankInfo: its four private members. -/
structure DcCodeBankInfo where
  valid : Bool
  size : Nat
  version : String
  state : Bool
  deriving DecidableEq, Repr

namespace DcCodeBankInfo

/-- The constant kBankIsActive. -/
def kBankIsActive : Int := 1

/-- The value `(quint32)~0`. -/
def allOnes : Nat := 4294967295

/-- The method clear(). -/
def clear : DcCodeBankInfo :=
  { valid := false, size := allOnes, version := "", state := false }

/-- The method isOk(): `_size != (quint32)~0`. -/
def isOk (b : DcCodeBankInfo) : Bool :=
  b.size != allOnes

/-- The loop of bankInfoToCodeSize, with `n` iterations left, the loop index `idx` and the
running values of `factor` and `codesz`:
`codesz += (md.toInt(10+idx,1,0)&0x0F)<<factor; factor -= 4;`. The shift amount is `factor`,
which is never negative while the loop runs. -/
def codeSizeLoop (md : DcMidiData) : Nat → Nat → Int → Int → Int
  | 0, _, _, codesz => codesz
  | n + 1, idx, factor, codesz =>
    let term := wrapInt32 (((md.toInt (10 + idx)).toNat &&& 0x0F : Nat) <<< factor.toNat : Nat)
    codeSizeLoop md n (idx + 1) (factor - 4) (wrapInt32 (codesz + term))

/-- The method bankInfoToCodeSize(md). -/
def bankInfoToCodeSize (md : DcMidiData) : Nat :=
  let codesz : Int := 0
  if md.length ≥ 20 then
    toQuint32 (codeSizeLoop md 8 0 28 codesz)
  else
    toQuint32 codesz

/-- The method bankInfoToCodeVer(md). -/
def bankInfoToCodeVer (md : DcMidiData) : String :=
  md.toAsciiString 6 4

/-- The method bankInfoToState(md). -/
def bankInfoToState (md : DcMidiData) : Bool :=
  let s := md.toInt 18
  s == kBankIsActive

/-- The method init(md). -/
def init (md : DcMidiData) : DcCodeBankInfo :=
  let b := clear
  if md.match (pat RESPONCE_BANK_INFO_INVALID) then
    { b with valid := false }
  else if md.match (pat RESPONCE_BANK_INFO) then
    { valid := true
      version := bankInfoToCodeVer md
      size := bankInfoToCodeSize md
      state := bankInfoToState md }
  else
    { b with size := allOnes }

end DcCodeBankInfo

/-- The class DcBootCodeInfo: two banks and the firmware version. A default-constructed object
holds two default-constructed (cleared) banks. -/
structure DcBootCodeInfo where
  bank0 : DcCodeBankInfo := DcCodeBankInfo.clear
  bank1 : DcCodeBankInfo := DcCodeBankInfo.clear
  version : String := ""
  deriving DecidableEq, Repr

namespace DcBootCodeInfo

/-- The method getBank(num). -/
def getBank (i : DcBootCodeInfo) (num : Int) : DcCodeBankInfo :=
  if num = 0 then i.bank0 else i.bank1

/-- The method isOk(): `_bank1.isOk() || _bank0.isOk()`. -/
def isOk (i : DcBootCodeInfo) : Bool :=
  i.bank1.isOk || i.bank0.isOk

/-- The method setBank(num, val). -/
def setBank (i : DcBootCodeInfo) (num : Int) (val : DcCodeBankInfo) : DcBootCodeInfo :=
  if num ≠ 0 then { i with bank1 := val } else { i with bank0 := val }

/-- The method setVersion(FwVersion). -/
def setVersion (i : DcBootCodeInfo) (fwVersion : String) : DcBootCodeInfo :=
  { i with version := fwVersion }

end DcBootCodeInfo

/-- The low four bits of the byte at `offset`: `md[offset] & 0x0F`. -/
def lowNibble (md : DcMidiData) (offset : Nat) : Nat :=
  (md.getD offset 0).val &&& 0x0F

/-! ## The inbound stream, the outbound port and the diagnostic log -/

/-- The messages still to arrive on the inbound stream, in arrival order; each carries the
number of milliseconds between the previous arrival (for the first one: the present moment)
and its own. -/
abbrev Timeline := List (Nat × DcMidiData)

/-- What lies outside the session object: the inbound stream, the record of everything handed
to the outbound port (oldest first), and the record of the DCLOG() statements executed, each
with the items streamed into it. -/
structure World where
  inbound : Timeline
  sent : List DcMidiData
  log : List (List String)
  deriving DecidableEq, Repr

namespace World

/-- Modelled from the spec: DcMidiOut::dataOut (not among the sources), "send(Message)
(fire-and-forget)": the message is appended to the record of the outbound port and no time
passes. -/
def dataOut (w : World) (m : DcMidiData) : World :=
  { w with sent := w.sent ++ [m] }

/-- Modelled from the spec: DcMidiOut::dataOutThrottled (not among the sources), "a throttled
variant that paces consecutive sends"; the pacing itself is not represented. -/
def dataOutThrottled (w : World) (m : DcMidiData) : World :=
  { w with sent := w.sent ++ [m] }

/-- One DCLOG() statement with the items streamed into it. -/
def dclog (w : World) (items : List String) : World :=
  { w with log := w.log ++ [items] }

end World

/-- Modelled from the spec: the classes DcMidiTrigger and DcAutoTrigger (not among the sources),
§3: a trigger "owns a pattern, a thread-safe ordered queue of matched Messages (insertion order
= arrival order), and a count of total matches seen since (re)arming". -/
structure DcMidiTrigger where
  pattern : Pattern
  queue : List DcMidiData
  count : Nat
  deriving DecidableEq, Repr

namespace DcMidiTrigger

/-- Modelled from the spec: construction of a trigger, which "arms the pattern against the
shared inbound stream". -/
def arm (p : Pattern) : DcMidiTrigger :=
  { pattern := p, queue := [], count := 0 }

/-- Modelled from the spec: delivery of one arriving message to an armed trigger: a message that
matches the pattern is queued and counted, any other is ignored. -/
def handle (t : DcMidiTrigger) (m : DcMidiData) : DcMidiTrigger :=
  if m.match t.pattern then { t with queue := t.queue ++ [m], count := t.count + 1 } else t

/-- Modelled from the spec: setPattern(newPattern), which "replaces the match pattern and clears
the queue/counter". -/
def setPattern (_t : DcMidiTrigger) (p : Pattern) : DcMidiTrigger :=
  { pattern := p, queue := [], count := 0 }

/-- Modelled from the spec: dequeue(), which "pops the oldest queued match, or none if the queue
is empty; never blocks". -/
def dequeue (t : DcMidiTrigger) : Option DcMidiData × DcMidiTrigger :=
  match t.queue with
  | [] => (none, t)
  | m :: q => (some m, { t with queue := q })

/-- Modelled from the spec: count(), the "cumulative number of matches observed since
construction or last re-arm". -/
def getCount (t : DcMidiTrigger) : Nat :=
  t.count

end DcMidiTrigger

/-- Modelled from the spec: the delivery of inbound messages to an armed trigger (DcMidiIn and
DcMidiTrigger, not among the sources; §6: every received frame is delivered "to every currently
armed Trigger, exactly once per Trigger, in receipt order") while the calling thread sleeps `d`
milliseconds: every message arriving within that time is delivered to the trigger; the first
message that arrives later has its delay shortened by the time that passed. -/
def elapse : Nat → DcMidiTrigger → Timeline → DcMidiTrigger × Timeline
  | _, t, [] => (t, [])
  | d, t, (δ, m) :: rest =>
    if δ ≤ d then elapse (d - δ) (t.handle m) rest else (t, (δ - d, m) :: rest)

/-- Modelled from the spec: the inbound stream during a wait of at most `d` milliseconds on a
trigger with pattern `p` and an empty queue (DcMidiTrigger::wait, not among the sources):
messages that arrive within the time and do not match pass by; the first one that matches ends
the wait at its arrival and is returned, together with what is still to arrive after it; with
no such message the whole time passes. -/
def awaitMatch (p : Pattern) : Nat → Timeline → Option DcMidiData × Timeline
  | _, [] => (none, [])
  | d, (δ, m) :: rest =>
    if δ ≤ d then
      if m.match p then (some m, rest) else awaitMatch p (d - δ) rest
    else (none, (δ - d, m) :: rest)

/-- The result of a wait on a trigger. -/
structure WaitResult where
  ok : Bool
  trigger : DcMidiTrigger
  world : World
  deriving DecidableEq, Repr

/-- Modelled from the spec: wait(timeoutMs), which "blocks the calling thread until at least one
match is queued or the timeout elapses; returns whether a match is available. Does not consume
the match". A match already queued ends the wait at once. -/
def DcMidiTrigger.wait (t : DcMidiTrigger) (timeoutMs : Nat) (w : World) : WaitResult :=
  if t.queue.isEmpty then
    match awaitMatch t.pattern timeoutMs w.inbound with
    | (some m, rest) => ⟨true, t.handle m, { w with inbound := rest }⟩
    | (none, rest) => ⟨false, t, { w with inbound := rest }⟩
  else ⟨true, t, w⟩

/-- The call QThread::msleep(d) with a trigger armed, acting on the world. -/
def msleep (d : Nat) (t : DcMidiTrigger) (w : World) : DcMidiTrigger × World :=
  ((elapse d t w.inbound).1, { w with inbound := (elapse d t w.inbound).2 })

/-! ## Text helpers -/

/-- The upper-case hexadecimal digit of a value below 16. -/
def hexChar (n : Nat) : Char :=
  if n < 10 then Char.ofNat (48 + n) else Char.ofNat (55 + n)

/-- Modelled from the spec: DcMidiData::toString(separator), the rendering of a message "to hex
text": two hexadecimal digits per byte, the bytes separated by the separator. -/
def DcMidiData.toString (md : DcMidiData) (sep : Char) : String :=
  String.mk (List.intercalate [sep] (md.map (fun b => [hexChar (b.val / 16), hexChar (b.val % 16)])))

/-- The Qt function QString::mid(position, n). -/
def qmid (s : String) (position n : Nat) : String :=
  String.mk ((s.data.drop position).take n)

/-- A piece of a text with place markers: a plain character, or a place marker with its number
and the characters that spell it. -/
inductive ArgTok where
  | char (c : Char)
  | marker (n : Nat) (text : List Char)
  deriving DecidableEq, Repr

/-- Where the reading of a text with place markers stands: in plain text, after a percent sign,
or after a percent sign and the digit `c` of value `d`. -/
inductive ArgState where
  | text
  | percent
  | digit (d : Nat) (c : Char)
  deriving DecidableEq, Repr

/-- Value of a decimal digit character, if it is one. -/
def digitValue (c : Char) : Option Nat :=
  if c.toNat ≥ 48 ∧ c.toNat ≤ 57 then some (c.toNat - 48) else none

/-- The place markers of a text as the Qt function QString::arg finds them: a percent sign
followed by one or two decimal digits is a place marker with that number; any other character
is plain text. (The form `%L1` does not occur in the texts of these sources and is not
represented.) -/
def argTokens : ArgState → List Char → List ArgTok
  | .text, [] => []
  | .percent, [] => [.char '%']
  | .digit d c0, [] => [.marker d ['%', c0]]
  | .text, c :: cs =>
    if c = '%' then argTokens .percent cs else .char c :: argTokens .text cs
  | .percent, c :: cs =>
    match digitValue c with
    | some d => argTokens (.digit d c) cs
    | none =>
      .char '%' :: (if c = '%' then argTokens .percent cs else .char c :: argTokens .text cs)
  | .digit d c0, c :: cs =>
    match digitValue c with
    | some e => .marker (10 * d + e) ['%', c0, c] :: argTokens .text cs
    | none =>
      .marker d ['%', c0]
        :: (if c = '%' then argTokens .percent cs else .char c :: argTokens .text cs)

/-- The lowest number among the place markers of a tokenised text, if there is a marker. -/
def lowestMarker : List ArgTok → Option Nat
  | [] => none
  | .char _ :: ts => lowestMarker ts
  | .marker n _ :: ts =>
    match lowestMarker ts with
    | some m => some (min n m)
    | none => some n

/-- The Qt function QString::arg(a) for a text argument: every occurrence of the place marker
with the lowest number is replaced by `a`; a text without place marker is returned as it is. -/
def qArg (text : String) (a : String) : String :=
  match lowestMarker (argTokens .text text.data) with
  | none => text
  | some n =>
    String.mk ((argTokens .text text.data).flatMap (fun t =>
      match t with
      | .char c => [c]
      | .marker m orig => if m = n then a.data else orig))

/-- The Qt function QString::arg(int a) with the default base 10, for a value that is not
negative: the place marker with the lowest number is replaced by the decimal text of `a`. -/
def qArgInt (text : String) (a : Nat) : String :=
  qArg text (Nat.repr a)

/-! ## Device identity -/

/-- Modelled from the spec: the class DcMidiDevIdent (not among the sources), the "structured
family/product/firmware-version fields" of an identity reply, as far as the sources read them
(getFamilyByte(), getProductByte(), FwVersion). -/
structure DcMidiDevIdent where
  familyByte : Byte
  productByte : Byte
  FwVersion : String
  deriving DecidableEq, Repr

/-- Modelled from the spec: the class DcDeviceDetails (not among the sources), "an optional,
possibly-empty pre-known identity record": the identity it carries, the answer of isEmpty(),
and the member CrippledIo read by the constructor of DcBootControl. -/
structure DcDeviceDetails where
  ident : DcMidiDevIdent
  empty : Bool
  CrippledIo : Bool
  deriving DecidableEq, Repr

/-- The parts of DcMidiDevIdent that neither the sources nor the spec determine, taken as
parameters: the default-constructed identity, the parser fromIdentData (given the identity
object it is called on and the reply) and the rendering toString(). -/
structure IdentApi where
  fresh : DcMidiDevIdent
  fromIdentData : DcMidiDevIdent → DcMidiData → DcMidiDevIdent
  toString : DcMidiDevIdent → String

/-- Modelled from the spec: DcMidiData::setData(template, args...) (not among the sources), by
which the "family/product bytes parameterize a private-reset template": every `vv` of the
template text takes the next argument, every other pair of hexadecimal digits is a byte.
The first argument holds the first character of a pair whose second is still to come. -/
def fillTemplate : Option Char → List Char → List Byte → DcMidiData
  | _, [], _ => []
  | none, c :: cs, args =>
    if c = ' ' then fillTemplate none cs args else fillTemplate (some c) cs args
  | some c1, c2 :: cs, args =>
    if c1 = 'v' ∧ c2 = 'v' then
      match args with
      | a :: as => a :: fillTemplate none cs as
      | [] => fillTemplate none cs []
    else
      match hexVal c1, hexVal c2 with
      | some hi, some lo => Fin.ofNat (16 * hi + lo) :: fillTemplate none cs args
      | _, _ => fillTemplate none cs args

/-- The call `setData(template, a, b)` on a message. -/
def DcMidiData.setData (template : String) (a b : Byte) : DcMidiData :=
  fillTemplate none template.data [a, b]

/-! ## DcBootControl -/

def kPrivateResetPartial : String := "F0 00 01 55 vv vv 1B F7"
def kFUGood : String := "F0 00 01 55 42 0C 00 F7"
def kFUBad : String := "F0 00 01 55 42 0C 01 F7"
def kFUFailed : String := "F0 00 01 55 42 0C 02 F7"
def kFUResponcePattern : String := "F0 00 01 55 42 0C .. F7"

/-- The class DcBootControl: the members that are not references to a port. The text written
through the stream `_lastErrorMsg` lands in `_lastErrorMsgStr`, to which the constructor ties
it. -/
structure DcBootControl where
  devDetails : DcDeviceDetails
  blindMode : Bool
  lastErrorMsgStr : String
  deriving DecidableEq, Repr

/-- What a method call leaves behind: its return value, the session object and the world. -/
structure Outcome (α : Type) where
  ret : α
  self : DcBootControl
  world : World

namespace DcBootControl

/-- The constructor: `_blindMode(d.CrippledIo)` and an empty error text. -/
def create (d : DcDeviceDetails) : DcBootControl :=
  { devDetails := d, blindMode := d.CrippledIo, lastErrorMsgStr := "" }

/-- The method getLastError(). -/
def getLastError (s : DcBootControl) : String :=
  s.lastErrorMsgStr

/-- The statement `_lastErrorMsg << text`. -/
def lastErrorMsg (s : DcBootControl) (text : String) : DcBootControl :=
  { s with lastErrorMsgStr := s.lastErrorMsgStr ++ text }

/-- The method isBootcode(). -/
def isBootcode (s : DcBootControl) (w : World) : Outcome Bool :=
  let autotc := DcMidiTrigger.arm
    (pat (if s.blindMode then "F0 00 01 55" else RESPONCE_BANK_INFO_ANY))
  let w1 := w.dataOut (DcMidiData.ofHex CMD_GET_BANK0_INFO)
  let r := autotc.wait 400 w1
  ⟨r.ok, s, r.world⟩

/-- The method identify(id); `id` is `none` for a null pointer, and the identity object
pointed to is returned with what the call wrote into it. The member `_pDevDetails` is bound to
a reference by the constructor, so it and the pointer cast from it are never null. -/
def identify (api : IdentApi) (s : DcBootControl) (id : Option DcMidiDevIdent) (w : World) :
    Outcome (Bool × Option DcMidiDevIdent) :=
  let autotc := DcMidiTrigger.arm
    (pat (if s.blindMode then "F0 7E .. 06" else "F0 7E .. 06 02 00 01 55"))
  let w1 := w.dataOut (DcMidiData.ofHex "F0 7E 7F 06 01 F7")
  let r := autotc.wait 3000 w1
  if r.ok then
    match id with
    | some i =>
      match r.trigger.dequeue with
      | (some md, _) =>
        if s.blindMode && !s.devDetails.empty then
          let i1 := s.devDetails.ident
          ⟨(true, some i1), s,
            r.world.dclog ["BootControl 'blind mode' Id Result: ", api.toString i1, "\n"]⟩
        else
          let i1 := api.fromIdentData i md
          ⟨(true, some i1), s, r.world.dclog ["BootControl Id Result: ", api.toString i1, "\n"]⟩
      | (none, _) => ⟨(false, some i), s, r.world⟩
    | none => ⟨(true, none), s, r.world⟩
  else
    ⟨(false, id), s.lastErrorMsg "Timeout waiting for identity response in BootControl", r.world⟩

/-- The method makePrivateResetCmd(). -/
def makePrivateResetCmd (api : IdentApi) (s : DcBootControl) (w : World) : Outcome DcMidiData :=
  let id := api.fresh
  let priRst : DcMidiData := []
  let r := identify api s (some id) w
  if r.ret.1 = false then
    ⟨priRst, r.self, r.world.dclog ["No response from identity request"]⟩
  else
    let id1 := r.ret.2.getD id
    ⟨DcMidiData.setData kPrivateResetPartial id1.familyByte id1.productByte, r.self, r.world⟩

/-- The method privateReset(). -/
def privateReset (api : IdentApi) (s : DcBootControl) (w : World) : Outcome Bool :=
  let r := makePrivateResetCmd api s w
  if r.ret.isEmpty then ⟨false, r.self, r.world⟩
  else ⟨true, r.self, r.world.dataOut r.ret⟩

/-- The state of enableBootcode() when its probe loop is left. -/
structure ProbeResult where
  responceData : DcMidiData
  tc : DcMidiTrigger
  world : World
  deriving DecidableEq, Repr

/-- The probe loop of enableBootcode() with `n` iterations left:
`dataOut(CMD_ENABLE_RECOVERY); msleep(20); if(tc.dequeue(responceData)) break;`. -/
def probeLoop : Nat → DcMidiData → DcMidiTrigger → World → ProbeResult
  | 0, responceData, tc, w => ⟨responceData, tc, w⟩
  | n + 1, responceData, tc, w =>
    let w1 := w.dataOut (DcMidiData.ofHex CMD_ENABLE_RECOVERY)
    let sl := msleep 20 tc w1
    match sl.1.dequeue with
    | (some md, tc1) => ⟨md, tc1, sl.2⟩
    | (none, tc1) => probeLoop n responceData tc1 sl.2

/-- The middle of enableBootcode() (lines 42 to 64): the trigger is armed, the private reset is
sent, the thread sleeps 100 ms and the probe loop runs. -/
def enableBootcodeProbe (s : DcBootControl) (priRst : DcMidiData) (w : World) : ProbeResult :=
  let tc := DcMidiTrigger.arm
    (pat (if s.blindMode then "F0 00 01 55" else RESPONCE_ENABLE_RECOVERY_ANY))
  let w1 := if s.blindMode then w.dclog ["Attempting to enable boot code in blind mode"] else w
  let w2 := w1.dataOut priRst
  let sl := msleep 100 tc w2
  probeLoop 40 [] sl.1 sl.2

/-- The end of enableBootcode() (lines 67 to 109): the decision on the response data. -/
def enableBootcodeFinish (s : DcBootControl) (responceData : DcMidiData) (w : World) :
    Outcome Bool :=
  if s.blindMode then
    ⟨true, s, w.dclog ["Device is running 'blind mode' boot code"]⟩
  else if responceData.match (pat RESPONCE_ENABLE_RECOVERY_ACK) then
    let v := isBootcode s w
    if !v.ret then
      ⟨false, v.self,
        (v.world.dclog ["Failed to verify device is in boot code"]).dataOut
          (DcMidiData.ofHex "F0 00 01 55 42 01 F7")⟩
    else
      ⟨true, v.self, v.world.dclog ["Device is running boot code"]⟩
  else if responceData.match (pat RESPONCE_ENABLE_RECOVERY_REJECTED) then
    ⟨false, s, w.dclog ["The device has rejected the enable recovery command"]⟩
  else if responceData.match (pat RESPONCE_ENABLE_RECOVERY_FAILED) then
    ⟨false, s, w.dclog ["Device has failed the enabled recovery command"]⟩
  else
    ⟨false, s,
      (w.dataOut (DcMidiData.ofHex "F0 00 01 55 42 01 F7")).dclog ["Timeout entering boot code"]⟩

/-- The method enableBootcode(). -/
def enableBootcode (api : IdentApi) (s : DcBootControl) (w : World) : Outcome Bool :=
  let b := isBootcode s w
  if b.ret then ⟨true, b.self, b.world⟩
  else
    let p := makePrivateResetCmd api b.self b.world
    if p.ret.length = 0 then ⟨false, p.self, p.world⟩
    else
      let l := enableBootcodeProbe p.self p.ret p.world
      enableBootcodeFinish p.self l.responceData l.world

/-- The state in which enableBootcode() leaves its probe loop, when the device is not in boot
code and the private reset could be built. -/
def enableBootcodeLoopExit (api : IdentApi) (s : DcBootControl) (w : World) : ProbeResult :=
  let b := isBootcode s w
  let p := makePrivateResetCmd api b.self b.world
  enableBootcodeProbe p.self p.ret p.world

/-- The method writeMidi(msg). -/
def writeMidi (s : DcBootControl) (msg : DcMidiData) (w : World) : Outcome Bool :=
  ⟨true, s, w.dataOut msg⟩

/-- The blind-mode block of writeFirmwareUpdateMsg (lines 192 to 208): the dequeued message is
replaced by one of the three response constants when it starts like one of them. -/
def blindNormalize (md : DcMidiData) (w : World) : DcMidiData × World :=
  if md.match (pat "F0 00 01 55 42 00") then
    (DcMidiData.ofHex kFUGood, w)
  else if md.match (pat "F0 00 01 55 42 01") then
    (DcMidiData.ofHex kFUBad, w.dclog ["RECVD: ", DcMidiData.toString md ' '])
  else if md.match (pat "F0 00 01 55 42 02") then
    (DcMidiData.ofHex kFUFailed, w.dclog ["RECVD: ", DcMidiData.toString md ' '])
  else (md, w)

/-- The decision of writeFirmwareUpdateMsg on the response (lines 210 to 228). -/
def firmwareUpdateDecide (s : DcBootControl) (md : DcMidiData) (w : World) : Outcome Bool :=
  if md = DcMidiData.ofHex kFUGood then
    ⟨true, s, w⟩
  else if md = DcMidiData.ofHex kFUBad then
    ⟨false, s.lastErrorMsg "Device reject firmware command - BAD packet.", w.dclog ["kFUBad"]⟩
  else if md = DcMidiData.ofHex kFUFailed then
    ⟨false, s.lastErrorMsg "Device failed firmware command.", w.dclog ["kFUFailed"]⟩
  else
    ⟨false, s.lastErrorMsg "Firmware write generated an unknown response from the device.",
      w.dclog ["Unknown response: ", DcMidiData.toString md ' ', "\n"]⟩

/-- The method writeFirmwareUpdateMsg(msg, timeOutMs). The block is passed by reference and
its byte 8 is overwritten (`msg[8] = 0x03`, which leaves a block of fewer than nine bytes as
it is here); the block as written is the message that enters the record of the outbound
port. A negative time-out waits like a time-out of zero. -/
def writeFirmwareUpdateMsg (s : DcBootControl) (msg : DcMidiData) (timeOutMs : Int) (w : World) :
    Outcome Bool :=
  let autotc := DcMidiTrigger.arm
    (pat (if s.blindMode then "F0 00 01 55" else kFUResponcePattern))
  let msg1 : DcMidiData := msg.set 8 0x03
  let w1 := w.dataOut msg1
  let r := autotc.wait timeOutMs.toNat w1
  if r.ok then
    match r.trigger.dequeue with
    | (some md, _) =>
      let n := if s.blindMode then blindNormalize md r.world else (md, r.world)
      firmwareUpdateDecide s n.1 n.2
    | (none, _) => ⟨false, s, r.world⟩
  else
    ⟨false,
      s.lastErrorMsg ("Firmware update failure - timeout after write command.\n"
        ++ qmid (DcMidiData.toString msg1 ' ') 15 38),
      r.world.dclog ["Timeout waiting on ", DcMidiData.toString msg1 ' ', "\n"]⟩

/-- The two branches of activateBank after its checks (lines 382 to 410), for the expected
responses and commands of the bank to activate and of the other bank. -/
def activateSequence (s : DcBootControl) (activate activateSuccess deactivate
    deactivateSuccess : String) (w : World) : Outcome Bool :=
  let mtrigger := DcMidiTrigger.arm (pat activateSuccess)
  let w1 := w.dataOutThrottled (DcMidiData.ofHex activate)
  let r1 := mtrigger.wait 1000 w1
  if r1.ok then
    let mtrigger1 := r1.trigger.setPattern (pat deactivateSuccess)
    let w2 := r1.world.dataOutThrottled (DcMidiData.ofHex deactivate)
    let r2 := mtrigger1.wait 1000 w2
    if r2.ok then ⟨true, s, r2.world⟩ else ⟨false, s, r2.world⟩
  else ⟨false, s, r1.world⟩

/-- The method activateBank(bankNumber). -/
def activateBank (s : DcBootControl) (bankNumber : Int) (w : World) : Outcome Bool :=
  if s.blindMode then
    ⟨false, s,
      w.dclog ["activateBank ", toString bankNumber, " is not available in blind mode - fail"]⟩
  else if bankNumber ≠ 0 ∧ bankNumber ≠ 1 then
    ⟨false, s, w.dclog ["Invalid bank number specified"]⟩
  else
    let b := isBootcode s w
    if !b.ret then
      ⟨false, b.self, b.world.dclog ["not in boot code, can't activate a bank"]⟩
    else if 0 = bankNumber then
      activateSequence b.self DCBC_ACTIVATE_BANK0 DCBC_ACTIVATE_BANK0_SUCCESS
        DCBC_DEACTIVATE_BANK1 DCBC_DEACTIVATE_BANK1_SUCCESS b.world
    else
      activateSequence b.self DCBC_ACTIVATE_BANK1 DCBC_ACTIVATE_BANK1_SUCCESS
        DCBC_DEACTIVATE_BANK0 DCBC_DEACTIVATE_BANK0_SUCCESS b.world

/-- The method getBootCodeInfo(bcInfo); the object passed by reference is returned with what
the call wrote into it. -/
def getBootCodeInfo (api : IdentApi) (s : DcBootControl) (bcInfo : DcBootCodeInfo) (w : World) :
    Outcome (Bool × DcBootCodeInfo) :=
  let b := isBootcode s w
  if !b.ret then ⟨(false, bcInfo), b.self, b.world⟩
  else
    let i := identify api b.self (some api.fresh) b.world
    let bc1 := if i.ret.1 then bcInfo.setVersion (i.ret.2.getD api.fresh).FwVersion else bcInfo
    let autotc := DcMidiTrigger.arm (pat RESPONCE_BANK_INFO_ANY)
    let w1 := i.world.dataOutThrottled (DcMidiData.ofHex CMD_GET_BANK0_INFO)
    let r0 := autotc.wait 500 w1
    let codeInfo0 :=
      if !r0.ok then DcCodeBankInfo.clear
      else DcCodeBankInfo.init (r0.trigger.dequeue.1.getD [])
    let t0 := if !r0.ok then r0.trigger else r0.trigger.dequeue.2
    let bc2 := bc1.setBank 0 codeInfo0
    let w2 := r0.world.dataOutThrottled (DcMidiData.ofHex CMD_GET_BANK1_INFO)
    let r1 := t0.wait 500 w2
    let codeInfo1 :=
      if !r1.ok then DcCodeBankInfo.clear
      else DcCodeBankInfo.init (r1.trigger.dequeue.1.getD [])
    let bc3 := bc2.setBank 1 codeInfo1
    ⟨(bc3.isOk, bc3), i.self, r1.world⟩

/-- The method exitBoot(id); `id` is `none` for a null pointer. -/
def exitBoot (api : IdentApi) (s : DcBootControl) (id : Option DcMidiDevIdent) (w : World) :
    Outcome (Bool × Option DcMidiDevIdent) :=
  let autotc := DcMidiTrigger.arm
    (pat (if s.blindMode then "F0 7E .. 06" else "F0 7E .. 06 02 00 01 55"))
  let w1 := w.dataOut (DcMidiData.ofHex "F0 00 01 55 42 01 F7")
  let r := autotc.wait 4000 w1
  if r.ok then
    match id with
    | some i =>
      match r.trigger.dequeue with
      | (some md, _) => ⟨(true, some (api.fromIdentData i md)), s, r.world⟩
      | (none, _) => ⟨(false, some i), s, r.world⟩
    | none => ⟨(true, none), s, r.world⟩
  else ⟨(false, id), s, r.world⟩

/-- The text that checkPid(pid) arms as response pattern:
`QString( RESPONCE_READ_PID_FID ).arg( (pid & 0xFF00) >> 8).arg(pid & 0xFF)`. For a C++ int in
two's complement `(pid & 0xFF00) >> 8` is `(pid / 256) % 256` and `pid & 0xFF` is `pid % 256`,
with the division rounding down. -/
def checkPidResponce (pid : Int) : String :=
  qArgInt (qArgInt RESPONCE_READ_PID_FID ((pid / 256) % 256).toNat) (pid % 256).toNat

/-- The method checkPid(pid). -/
def checkPid (s : DcBootControl) (pid : Int) (w : World) : Outcome Bool :=
  let responce := checkPidResponce pid
  let autotc := DcMidiTrigger.arm (pat responce)
  let w1 := w.dataOut (DcMidiData.ofHex DCBC_READ_PID_FID)
  let r := autotc.wait 400 w1
  ⟨r.ok, s, r.world⟩

/-- Modelled from the spec: the pattern that countResponcePattern arms, which the source builds
with the constructor DcMidiData(pattern), `md.mid( 0,4 )` and `md.toString()` (none of them
among the sources): the pattern text as given, and "in blind mode the pattern is truncated to
its 4-byte prefix", that is to its first eight digit positions. -/
def countPattern (blind : Bool) (pattern : String) : Pattern :=
  if blind then (pat pattern).take 8 else pat pattern

/-- The method countResponcePattern(cmd, pattern, timeOutMs), for a time that is not negative
(the conversion of a negative int to the unsigned argument of QThread::msleep is not
represented). -/
def countResponcePattern (s : DcBootControl) (cmd pattern : String) (timeOutMs : Nat)
    (w : World) : Outcome Nat :=
  let autotc := DcMidiTrigger.arm (countPattern s.blindMode pattern)
  let w1 := w.dataOut (DcMidiData.ofHex cmd)
  let sl := msleep timeOutMs autotc w1
  let cnt := sl.1.getCount
  ⟨cnt, s, sl.2⟩

end DcBootControl

/-! ## Sample sessions and worlds -/

/-- A device-detail record that carries no identity. -/
def sampleDetails : DcDeviceDetails :=
  { ident := { familyByte := 0, productByte := 0, FwVersion := "" }, empty := true,
    CrippledIo := false }

/-- A session in normal mode with no error recorded. -/
def sampleSession : DcBootControl :=
  DcBootControl.create sampleDetails

/-- A session in blind mode with no error recorded. -/
def sampleBlindSession : DcBootControl :=
  { sampleSession with blindMode := true }

/-- A world in which the given messages arrive, with nothing sent or logged yet. -/
def worldWith (tl : Timeline) : World :=
  { inbound := tl, sent := [], log := [] }

/-- A firmware block of 30 bytes. -/
def sampleBlock : DcMidiData :=
  List.replicate 30 7

/-- An identity parser that reads the family from byte 8 and the product from byte 10 of the
reply, with a fixed rendering. -/
def sampleApi : IdentApi :=
  { fresh := { familyByte := 0, productByte := 0, FwVersion := "" }
    fromIdentData := fun i md =>
      { familyByte := md.getD 8 0, productByte := md.getD 10 0, FwVersion := i.FwVersion }
    toString := fun _ => "identity" }

/-- An identity reply of a device of family 0x12 and product 0x03. -/
def sampleIdentReply : DcMidiData :=
  DcMidiData.ofHex "F0 7E 00 06 02 00 01 55 12 00 03 00 31 32 33 34 F7"

/-- A device running its application firmware: it stays silent on the boot-code probe, answers
the identity request 500 ms into the call, and after the reset answers "enable recovery" with
the given response 190 ms after the identity reply, that is between the fourth and the fifth
probe; 50 ms later it answers the bank-0 query. -/
def worldEntering (response : String) : World :=
  worldWith [(500, sampleIdentReply), (190, DcMidiData.ofHex response),
    (50, DcMidiData.ofHex "F0 00 01 55 42 08 02 F7")]

/-! ## Statements about the error text and about patterns, further sample worlds -/

/-- The error text of `after` has the error text of `before` in front. -/
def lastErrorKept (before after : DcBootControl) : Prop :=
  ∃ e : String, after.getLastError = before.getLastError ++ e

/-- The session `after` is the session `before` with some text appended to its error text, and
nothing else changed. -/
def ErrorTextAppended (before after : DcBootControl) : Prop :=
  ∃ t : String, after = { before with lastErrorMsgStr := before.lastErrorMsgStr ++ t }

def pidPattern (hi lo : Nat) : Pattern :=
  pat "F0 00 01 55 42 0D 02 00 0F 0F 0F 0F 08"
    ++ [.digit (hi / 16), .digit (hi % 16), .digit (lo / 16), .digit (lo % 16),
        .any, .any, .any, .any, .digit 15, .digit 7]

/-- A device in boot code that answers the probe and the identity request, lets the wait for
bank 0 run out, and sends its bank-0 reply 100 ms into the wait for bank 1. -/
def worldLateBank0Reply : World :=
  worldWith [(20, DcMidiData.ofHex "F0 00 01 55 42 08 02 F7"), (50, sampleIdentReply),
    (600, DcMidiData.ofHex "F0 00 01 55 42 08 31 32 33 34 00 00 00 01 02 03 04 05 01 F7")]

/-- A device in boot code that answers the probe and the identity request, reports bank 0 with
a size field of eight nibbles 0xF and reports bank 1 as invalid. -/
def worldBankSizeAllOnes : World :=
  worldWith [(20, DcMidiData.ofHex "F0 00 01 55 42 08 02 F7"), (50, sampleIdentReply),
    (30, DcMidiData.ofHex "F0 00 01 55 42 08 31 32 33 34 0F 0F 0F 0F 0F 0F 0F 0F 01 F7"),
    (30, DcMidiData.ofHex "F0 00 01 55 42 09 02 F7")]

/-- A device in boot code that answers the probe and the identity request, reports bank 0 as
active with size 0x00012345 and stays silent on the bank-1 query. -/
def worldBank1Silent : World :=
  worldWith [(20, DcMidiData.ofHex "F0 00 01 55 42 08 02 F7"), (50, sampleIdentReply),
    (30, DcMidiData.ofHex "F0 00 01 55 42 08 31 32 33 34 00 00 00 01 02 03 04 05 01 F7")]

/-! ## Facts about the bank-size decoding -/

open DcCodeBankInfo DcBootControl

/-- The loop of bankInfoToCodeSize adds, modulo 2^32, the shifted low nibbles still to come to
the running value. -/
theorem codeSizeLoop_mod (md : DcMidiData) (n : Nat) :
    ∀ (idx : Nat) (factor c : Int),
      codeSizeLoop md n idx factor c % 4294967296
        = (c + ∑ j in Finset.range n,
            ((lowNibble md (10 + idx + j) <<< (factor - 4 * (j : Int)).toNat : Nat) : Int))
          % 4294967296 := by
  induction n with
  | zero => intro idx factor c; simp [codeSizeLoop]
  | succ n ih =>
    intro idx factor c
    rw [codeSizeLoop, ih, Finset.sum_range_succ']
    have hs : ∑ j in Finset.range n,
          ((lowNibble md (10 + (idx + 1) + j) <<< (factor - 4 - 4 * (j : Int)).toNat : Nat) : Int)
        = ∑ j in Finset.range n,
          ((lowNibble md (10 + idx + (j + 1))
              <<< (factor - 4 * ((j + 1 : Nat) : Int)).toNat : Nat) : Int) := by
      apply Finset.sum_congr rfl
      intro j _
      have h1 : 10 + (idx + 1) + j = 10 + idx + (j + 1) := by omega
      have h2 : factor - 4 - 4 * (j : Int) = factor - 4 * ((j + 1 : Nat) : Int) := by
        push_cast; ring
      rw [h1, h2]
    rw [hs]
    simp only [DcMidiData.toInt, Int.toNat_ofNat, lowNibble, Nat.cast_zero, mul_zero, sub_zero,
      add_zero, wrapInt32]
    omega

/-- The decoded size of a message of at least 20 bytes, as a sum of shifted low nibbles. -/
theorem codeSize_formula (md : DcMidiData) (h : 20 ≤ md.length) :
    bankInfoToCodeSize md
      = (∑ i in Finset.range 8, (lowNibble md (10 + i)) <<< (28 - 4 * i)) % 4294967296 := by
  have hl : md.length ≥ 20 := h
  simp only [bankInfoToCodeSize, hl, if_true, toQuint32]
  rw [codeSizeLoop_mod]
  simp only [Finset.sum_range_succ, Finset.sum_range_zero]
  norm_num
  have e28 : Int.toNat 28 = 28 := rfl
  have e24 : Int.toNat 24 = 24 := rfl
  have e20 : Int.toNat 20 = 20 := rfl
  have e16 : Int.toNat 16 = 16 := rfl
  have e12 : Int.toNat 12 = 12 := rfl
  have e8 : Int.toNat 8 = 8 := rfl
  have e4 : Int.toNat 4 = 4 := rfl
  rw [e28, e24, e20, e16, e12, e8, e4]
  omega

/-- C1: for a message of at least 20 bytes, bankInfoToCodeSize returns the sum over
i = 0..7 of (md[10+i] & 0x0F) << (28 - 4*i), taken modulo 2^32; the result is 0xFFFFFFFF when
the eight low nibbles are all 0xF and 0 when they are all 0; and another message of at least
20 bytes with the same eight low nibbles at offsets 10..17 decodes to the same size, whatever
its high nibbles and other bytes are. -/
theorem bankInfoToCodeSize_packs_low_nibbles (md : DcMidiData) (h : 20 ≤ md.length) :
    bankInfoToCodeSize md
        = (∑ i in Finset.range 8, (lowNibble md (10 + i)) <<< (28 - 4 * i)) % 2 ^ 32
      ∧ ((∀ i, i < 8 → lowNibble md (10 + i) = 0xF) → bankInfoToCodeSize md = 0xFFFFFFFF)
      ∧ ((∀ i, i < 8 → lowNibble md (10 + i) = 0) → bankInfoToCodeSize md = 0)
      ∧ (∀ md2 : DcMidiData, 20 ≤ md2.length →
          (∀ i, i < 8 → lowNibble md2 (10 + i) = lowNibble md (10 + i)) →
          bankInfoToCodeSize md2 = bankInfoToCodeSize md) := by
  refine ⟨?_, ?_, ?_, ?_⟩
  · rw [codeSize_formula md h]; norm_num
  · intro hF
    rw [codeSize_formula md h]
    have e : ∑ i in Finset.range 8, (lowNibble md (10 + i)) <<< (28 - 4 * i)
        = ∑ i in Finset.range 8, 0xF <<< (28 - 4 * i) :=
      Finset.sum_congr rfl (fun i hi => by rw [hF i (Finset.mem_range.mp hi)])
    rw [e]; decide
  · intro h0
    rw [codeSize_formula md h]
    have e : ∑ i in Finset.range 8, (lowNibble md (10 + i)) <<< (28 - 4 * i)
        = ∑ i in Finset.range 8, 0 <<< (28 - 4 * i) :=
      Finset.sum_congr rfl (fun i hi => by rw [h0 i (Finset.mem_range.mp hi)])
    rw [e]; decide
  · intro md2 h2 hsame
    rw [codeSize_formula md h, codeSize_formula md2 h2]
    have e : ∑ i in Finset.range 8, (lowNibble md2 (10 + i)) <<< (28 - 4 * i)
        = ∑ i in Finset.range 8, (lowNibble md (10 + i)) <<< (28 - 4 * i) :=
      Finset.sum_congr rfl (fun i hi => by rw [hsame i (Finset.mem_range.mp hi)])
    rw [e]

/-- C1, on a bank-info response of 20 bytes whose size field carries the nibbles
0 0 0 1 2 3 4 5 under high nibbles that are not zero: the decoded size is 0x00012345. -/
theorem bankInfoToCodeSize_packs_low_nibbles_witness :
    20 ≤ (DcMidiData.ofHex
        "F0 00 01 55 42 08 31 32 33 34 70 60 50 41 32 23 14 05 01 F7").length
      ∧ bankInfoToCodeSize (DcMidiData.ofHex
          "F0 00 01 55 42 08 31 32 33 34 70 60 50 41 32 23 14 05 01 F7") = 0x00012345 :=
  ⟨by decide,
    ((bankInfoToCodeSize_packs_low_nibbles (DcMidiData.ofHex
        "F0 00 01 55 42 08 31 32 33 34 70 60 50 41 32 23 14 05 01 F7") (by decide)).1).trans
      (by decide)⟩

/-! ## Facts about isOk -/

/-- C2: a bank-info response that matches the full pattern and whose size field holds eight
low nibbles 0xF is parsed by init into a bank with valid = true and size 0xFFFFFFFF, for which
isOk() is false; a DcBootCodeInfo that stores this bank and a cleared one has isOk() false
although one of its banks parsed validly. -/
theorem isOk_false_for_valid_bank_of_size_all_ones :
    (DcCodeBankInfo.init (DcMidiData.ofHex
        "F0 00 01 55 42 08 31 32 33 34 0F 0F 0F 0F 0F 0F 0F 0F 01 F7")).valid = true
      ∧ (DcCodeBankInfo.init (DcMidiData.ofHex
        "F0 00 01 55 42 08 31 32 33 34 0F 0F 0F 0F 0F 0F 0F 0F 01 F7")).size = 0xFFFFFFFF
      ∧ (DcCodeBankInfo.init (DcMidiData.ofHex
        "F0 00 01 55 42 08 31 32 33 34 0F 0F 0F 0F 0F 0F 0F 0F 01 F7")).isOk = false
      ∧ (DcBootCodeInfo.setBank {} 0 (DcCodeBankInfo.init (DcMidiData.ofHex
        "F0 00 01 55 42 08 31 32 33 34 0F 0F 0F 0F 0F 0F 0F 0F 01 F7"))).isOk = false := by
  decide

/-! ## Facts about waiting and sleeping -/

/-- A message that ends a wait matches the pattern waited for. -/
theorem awaitMatch_match (p : Pattern) (m : DcMidiData) :
    ∀ (tl : Timeline) (d : Nat), (awaitMatch p d tl).1 = some m → m.match p = true := by
  intro tl
  induction tl with
  | nil => intro d h; simp [awaitMatch] at h
  | cons x rest ih =>
    intro d h
    obtain ⟨δ, m0⟩ := x
    unfold awaitMatch at h
    by_cases hd : δ ≤ d
    · by_cases hm : m0.match p = true
      · simp [hd, hm] at h
        rw [← h]; exact hm
      · simp [hd, hm] at h
        exact ih _ h
    · simp [hd] at h

/-- A wait on a freshly armed trigger, in terms of the inbound stream. -/
theorem wait_arm (p : Pattern) (d : Nat) (w : World) :
    (DcMidiTrigger.arm p).wait d w
      = match awaitMatch p d w.inbound with
        | (some m, rest) => ⟨true, ⟨p, [m], 1⟩, { w with inbound := rest }⟩
        | (none, rest) => ⟨false, DcMidiTrigger.arm p, { w with inbound := rest }⟩ := by
  unfold DcMidiTrigger.wait
  simp only [DcMidiTrigger.arm, List.isEmpty_nil, if_true]
  rcases h : awaitMatch p d w.inbound with ⟨o, rest⟩
  cases o with
  | none => rfl
  | some m =>
    have hm : m.match p = true := awaitMatch_match p m w.inbound d (by rw [h])
    simp [DcMidiTrigger.handle, hm]

/-- Sleeping `a` ms and then `b` ms with the same trigger armed is sleeping `a + b` ms. -/
theorem elapse_add (b : Nat) :
    ∀ (tl : Timeline) (a : Nat) (t : DcMidiTrigger),
      elapse (a + b) t tl = elapse b (elapse a t tl).1 (elapse a t tl).2 := by
  intro tl
  induction tl with
  | nil => intro a t; simp [elapse]
  | cons x rest ih =>
    intro a t
    obtain ⟨δ, m⟩ := x
    by_cases h1 : δ ≤ a
    · have h2 : δ ≤ a + b := by omega
      have h3 : a + b - δ = (a - δ) + b := by omega
      rw [elapse, elapse]
      simp only [h1, h2, if_true]
      rw [h3]
      exact ih (a - δ) (t.handle m)
    · by_cases h2 : δ ≤ a + b
      · have h4 : δ - a ≤ b := by omega
        have h5 : a + b - δ = b - (δ - a) := by omega
        simp only [elapse, h1, h2, h4, if_true, if_false, h5]
      · have h4 : ¬ δ - a ≤ b := by omega
        have h5 : δ - (a + b) = δ - a - b := by omega
        simp only [elapse, h1, h2, h4, if_false, h5]

/-! ## Facts about writeFirmwareUpdateMsg -/

/-- C3: in normal mode writeFirmwareUpdateMsg returns true exactly when a message matching
"F0 00 01 55 42 0C .. F7" arrives within the time-out and the first such message is
byte-for-byte F0 00 01 55 42 0C 00 F7; in every other case it returns false. -/
theorem writeFirmwareUpdateMsg_normal_true_iff (s : DcBootControl) (msg : DcMidiData)
    (timeOutMs : Int) (w : World) (hb : s.blindMode = false) :
    (writeFirmwareUpdateMsg s msg timeOutMs w).ret = true
      ↔ (awaitMatch (pat kFUResponcePattern) timeOutMs.toNat w.inbound).1
          = some (DcMidiData.ofHex kFUGood) := by
  unfold writeFirmwareUpdateMsg
  simp only [hb, wait_arm, World.dataOut]
  rcases h : awaitMatch (pat kFUResponcePattern) timeOutMs.toNat w.inbound with ⟨o, rest⟩
  cases o with
  | none => simp [h]
  | some m =>
    simp [h, DcMidiTrigger.dequeue, firmwareUpdateDecide]
    by_cases h1 : m = DcMidiData.ofHex kFUGood
    · simp [h1]
    · simp only [h1, if_false, iff_false]
      split_ifs <;> simp

/-- C3, on a session without earlier error and a block of 30 bytes, with the good response
arriving 35 ms after the block was sent: the call returns true. -/
theorem writeFirmwareUpdateMsg_normal_true_iff_witness :
    sampleSession.blindMode = false
      ∧ (writeFirmwareUpdateMsg sampleSession sampleBlock 2000
          (worldWith [(35, DcMidiData.ofHex "F0 00 01 55 42 0C 00 F7")])).ret = true :=
  ⟨by decide,
    (writeFirmwareUpdateMsg_normal_true_iff sampleSession sampleBlock 2000
      (worldWith [(35, DcMidiData.ofHex "F0 00 01 55 42 0C 00 F7")]) (by decide)).mpr
      (by decide)⟩

/-- C4: in normal mode, for every block, time-out and prior session state, when the response
received is exactly F0 00 01 55 42 0C 01 F7 the call returns false and the text returned by
getLastError() afterwards is the earlier text followed by "Device reject firmware command - BAD
packet.", so it contains "BAD packet". -/
theorem writeFirmwareUpdateMsg_bad_packet (s : DcBootControl) (msg : DcMidiData)
    (timeOutMs : Int) (w : World) (hb : s.blindMode = false)
    (h : (awaitMatch (pat kFUResponcePattern) timeOutMs.toNat w.inbound).1
          = some (DcMidiData.ofHex kFUBad)) :
    (writeFirmwareUpdateMsg s msg timeOutMs w).ret = false
      ∧ (writeFirmwareUpdateMsg s msg timeOutMs w).self.getLastError
          = s.getLastError ++ "Device reject firmware command - BAD packet."
      ∧ ∃ a b : String,
          (writeFirmwareUpdateMsg s msg timeOutMs w).self.getLastError = a ++ "BAD packet" ++ b := by
  have key : (writeFirmwareUpdateMsg s msg timeOutMs w).ret = false
      ∧ (writeFirmwareUpdateMsg s msg timeOutMs w).self.getLastError
          = s.getLastError ++ "Device reject firmware command - BAD packet." := by
    unfold writeFirmwareUpdateMsg
    simp only [hb, wait_arm, World.dataOut]
    rcases h2 : awaitMatch (pat kFUResponcePattern) timeOutMs.toNat w.inbound with ⟨o, rest⟩
    rw [h2] at h
    simp only at h
    subst h
    have hne : DcMidiData.ofHex kFUBad ≠ DcMidiData.ofHex kFUGood := by decide
    simp [h2, DcMidiTrigger.dequeue, firmwareUpdateDecide, hne, lastErrorMsg, getLastError]
  refine ⟨key.1, key.2, s.getLastError ++ "Device reject firmware command - ", ".", ?_⟩
  rw [key.2, String.append_assoc, String.append_assoc]
  rfl

/-- C4, on a session without earlier error and a block of 30 bytes, with the bad-packet
response arriving 35 ms after the block was sent. -/
theorem writeFirmwareUpdateMsg_bad_packet_witness :
    sampleSession.blindMode = false
      ∧ (awaitMatch (pat kFUResponcePattern) (2000 : Int).toNat
            (worldWith [(35, DcMidiData.ofHex "F0 00 01 55 42 0C 01 F7")]).inbound).1
          = some (DcMidiData.ofHex kFUBad)
      ∧ (writeFirmwareUpdateMsg sampleSession sampleBlock 2000
            (worldWith [(35, DcMidiData.ofHex "F0 00 01 55 42 0C 01 F7")])).ret = false :=
  ⟨by decide, by decide,
    (writeFirmwareUpdateMsg_bad_packet sampleSession sampleBlock 2000
      (worldWith [(35, DcMidiData.ofHex "F0 00 01 55 42 0C 01 F7")]) (by decide) (by decide)).1⟩

/-- A message that starts with F0 00 01 55 42 00 matches the first blind-mode text. -/
theorem lead0_match (rest : DcMidiData) :
    DcMidiData.match (0xF0 :: 0x00 :: 0x01 :: 0x55 :: 0x42 :: 0x00 :: rest) (pat "F0 00 01 55 42 00")
      = true := rfl

/-- A message that starts with F0 00 01 55 42 01 matches the second blind-mode text only. -/
theorem lead1_match (rest : DcMidiData) :
    DcMidiData.match (0xF0 :: 0x00 :: 0x01 :: 0x55 :: 0x42 :: 0x01 :: rest) (pat "F0 00 01 55 42 00")
        = false
      ∧ DcMidiData.match (0xF0 :: 0x00 :: 0x01 :: 0x55 :: 0x42 :: 0x01 :: rest) (pat "F0 00 01 55 42 01")
        = true := ⟨rfl, rfl⟩

/-- A message that starts with F0 00 01 55 42 02 matches the third blind-mode text only. -/
theorem lead2_match (rest : DcMidiData) :
    DcMidiData.match (0xF0 :: 0x00 :: 0x01 :: 0x55 :: 0x42 :: 0x02 :: rest) (pat "F0 00 01 55 42 00")
        = false
      ∧ DcMidiData.match (0xF0 :: 0x00 :: 0x01 :: 0x55 :: 0x42 :: 0x02 :: rest) (pat "F0 00 01 55 42 01")
        = false
      ∧ DcMidiData.match (0xF0 :: 0x00 :: 0x01 :: 0x55 :: 0x42 :: 0x02 :: rest) (pat "F0 00 01 55 42 02")
        = true := ⟨rfl, rfl, rfl⟩

/-- The value and the error text of the decision do not depend on the world. -/
theorem firmwareUpdateDecide_world (s : DcBootControl) (md : DcMidiData) (w1 w2 : World) :
    (firmwareUpdateDecide s md w1).ret = (firmwareUpdateDecide s md w2).ret
      ∧ (firmwareUpdateDecide s md w1).self = (firmwareUpdateDecide s md w2).self := by
  unfold firmwareUpdateDecide
  split_ifs <;> simp

/-- The message chosen by the blind-mode block does not depend on the world. -/
theorem blindNormalize_fst (md : DcMidiData) (w1 w2 : World) :
    (blindNormalize md w1).1 = (blindNormalize md w2).1 := by
  unfold blindNormalize
  split_ifs <;> rfl

/-- The call in terms of the first matching arrival. -/
theorem writeFirmwareUpdateMsg_of_arrival (s : DcBootControl) (msg : DcMidiData)
    (timeOutMs : Int) (w : World) (m : DcMidiData)
    (h : (awaitMatch (pat (if s.blindMode then "F0 00 01 55" else kFUResponcePattern))
            timeOutMs.toNat w.inbound).1 = some m) :
    (writeFirmwareUpdateMsg s msg timeOutMs w).ret
        = (firmwareUpdateDecide s (if s.blindMode then (blindNormalize m w).1 else m) w).ret
      ∧ (writeFirmwareUpdateMsg s msg timeOutMs w).self
        = (firmwareUpdateDecide s (if s.blindMode then (blindNormalize m w).1 else m) w).self := by
  unfold writeFirmwareUpdateMsg
  simp only [wait_arm, World.dataOut]
  rcases h2 : awaitMatch (pat (if s.blindMode then "F0 00 01 55" else kFUResponcePattern))
      timeOutMs.toNat w.inbound with ⟨o, rest⟩
  rw [h2] at h
  simp only at h
  subst h
  simp only [h2, DcMidiTrigger.dequeue, if_true]
  cases hb : s.blindMode
  · simp only [Bool.false_eq_true, if_false]
    exact firmwareUpdateDecide_world s _ _ _
  · simp only [if_true]
    rw [blindNormalize_fst m _ w]
    exact firmwareUpdateDecide_world s _ _ _

/-- The value and the error text of the decision do not depend on the mode flag. -/
theorem firmwareUpdateDecide_mode (s : DcBootControl) (b : Bool) (md : DcMidiData) (w1 w2 : World) :
    (firmwareUpdateDecide { s with blindMode := b } md w1).ret = (firmwareUpdateDecide s md w2).ret
      ∧ (firmwareUpdateDecide { s with blindMode := b } md w1).self.getLastError
          = (firmwareUpdateDecide s md w2).self.getLastError := by
  unfold firmwareUpdateDecide
  split_ifs <;> simp [lastErrorMsg, getLastError]

/-- C5: in blind mode, when the message received starts with F0 00 01 55 42 followed by 00, 01
or 02 (whatever follows), the blind-mode block replaces it by the good, bad or failed constant
respectively, the call returns true exactly in the first case, and the return value and error
text are those of a normal-mode call that receives that constant. -/
theorem writeFirmwareUpdateMsg_blind_normalizes (s : DcBootControl) (msg : DcMidiData)
    (timeOutMs : Int) (w : World) (k : Byte) (rest : DcMidiData) (hb : s.blindMode = true)
    (hk : k = 0 ∨ k = 1 ∨ k = 2)
    (h : (awaitMatch (pat "F0 00 01 55") timeOutMs.toNat w.inbound).1
          = some ([0xF0, 0x00, 0x01, 0x55, 0x42, k] ++ rest)) :
    (blindNormalize ([0xF0, 0x00, 0x01, 0x55, 0x42, k] ++ rest) w).1
        = DcMidiData.ofHex (if k = 0 then kFUGood else if k = 1 then kFUBad else kFUFailed)
      ∧ ((writeFirmwareUpdateMsg s msg timeOutMs w).ret = true ↔ k = 0)
      ∧ ∀ (msg2 : DcMidiData) (timeOutMs2 : Int) (w2 : World),
          (awaitMatch (pat kFUResponcePattern) timeOutMs2.toNat w2.inbound).1
            = some (DcMidiData.ofHex
                (if k = 0 then kFUGood else if k = 1 then kFUBad else kFUFailed)) →
          (writeFirmwareUpdateMsg { s with blindMode := false } msg2 timeOutMs2 w2).ret
              = (writeFirmwareUpdateMsg s msg timeOutMs w).ret
            ∧ (writeFirmwareUpdateMsg { s with blindMode := false } msg2 timeOutMs2 w2).self.getLastError
              = (writeFirmwareUpdateMsg s msg timeOutMs w).self.getLastError := by
  have A := writeFirmwareUpdateMsg_of_arrival s msg timeOutMs w
    ([0xF0, 0x00, 0x01, 0x55, 0x42, k] ++ rest) (by rw [hb]; exact h)
  rw [hb] at A
  simp only [if_true] at A
  have N : (blindNormalize ([0xF0, 0x00, 0x01, 0x55, 0x42, k] ++ rest) w).1
      = DcMidiData.ofHex (if k = 0 then kFUGood else if k = 1 then kFUBad else kFUFailed) := by
    rcases hk with rfl | rfl | rfl
    · simp [blindNormalize, lead0_match]
    · simp [blindNormalize, lead1_match]
    · simp [blindNormalize, lead2_match]
  rw [N] at A
  refine ⟨N, ?_, ?_⟩
  · rw [A.1]
    have g1 : DcMidiData.ofHex kFUBad ≠ DcMidiData.ofHex kFUGood := by decide
    have g2 : DcMidiData.ofHex kFUFailed ≠ DcMidiData.ofHex kFUGood := by decide
    have g3 : DcMidiData.ofHex kFUFailed ≠ DcMidiData.ofHex kFUBad := by decide
    rcases hk with rfl | rfl | rfl
    · simp [firmwareUpdateDecide]
    · simp [firmwareUpdateDecide, g1]
    · simp [firmwareUpdateDecide, g2, g3]
  · intro msg2 t2 w2 h2
    have B := writeFirmwareUpdateMsg_of_arrival { s with blindMode := false } msg2 t2 w2 _
      (by simpa using h2)
    simp only [Bool.false_eq_true, if_false] at B
    rw [B.1, B.2, A.1, A.2]
    exact firmwareUpdateDecide_mode s false _ w2 w

/-- C5, on a blind-mode session that receives F0 00 01 55 42 00 11 22 after 12 ms: the call
returns true. -/
theorem writeFirmwareUpdateMsg_blind_normalizes_witness :
    sampleBlindSession.blindMode = true
      ∧ ((0 : Byte) = 0 ∨ (0 : Byte) = 1 ∨ (0 : Byte) = 2)
      ∧ (awaitMatch (pat "F0 00 01 55") (2000 : Int).toNat
            (worldWith [(12, DcMidiData.ofHex "F0 00 01 55 42 00 11 22")]).inbound).1
          = some ([0xF0, 0x00, 0x01, 0x55, 0x42, 0] ++ [0x11, 0x22])
      ∧ (writeFirmwareUpdateMsg sampleBlindSession sampleBlock 2000
          (worldWith [(12, DcMidiData.ofHex "F0 00 01 55 42 00 11 22")])).ret = true :=
  ⟨by decide, by decide, by decide,
    ((writeFirmwareUpdateMsg_blind_normalizes sampleBlindSession sampleBlock 2000
      (worldWith [(12, DcMidiData.ofHex "F0 00 01 55 42 00 11 22")]) 0 [0x11, 0x22]
      (by decide) (by decide) (by decide)).2.1).mpr rfl⟩

/-! ## Facts about activateBank -/

/-- The world after isBootcode: the bank-0 query has been sent, and a wait of at most 400 ms
has passed on the inbound stream. -/
theorem isBootcode_world (s : DcBootControl) (w : World) :
    (isBootcode s w).world.sent = w.sent ++ [DcMidiData.ofHex CMD_GET_BANK0_INFO]
      ∧ (isBootcode s w).world.log = w.log
      ∧ (isBootcode s w).self = s := by
  unfold isBootcode
  simp only [wait_arm, World.dataOut]
  rcases h : awaitMatch (pat (if s.blindMode then "F0 00 01 55" else RESPONCE_BANK_INFO_ANY))
      400 w.inbound with ⟨o, rest⟩
  cases o <;> simp [h]

/-- C6: for every integer n, in blind mode or with n neither 0 nor 1, activateBank(n) returns
false and hands nothing to the outbound port, not even the bank-0-info probe. -/
theorem activateBank_refused (s : DcBootControl) (n : Int) (w : World)
    (h : s.blindMode = true ∨ (n ≠ 0 ∧ n ≠ 1)) :
    (activateBank s n w).ret = false ∧ (activateBank s n w).world.sent = w.sent := by
  unfold activateBank
  rcases h with h | h
  · simp [h, World.dclog]
  · by_cases hb : s.blindMode = true
    · simp [hb, World.dclog]
    · simp [hb, h, World.dclog]

/-- C6, on a normal-mode session asked for bank 2, with a device that would answer the
probe. -/
theorem activateBank_refused_witness :
    (sampleSession.blindMode = true ∨ ((2 : Int) ≠ 0 ∧ (2 : Int) ≠ 1))
      ∧ (activateBank sampleSession 2
          (worldWith [(20, DcMidiData.ofHex "F0 00 01 55 42 08 02 F7")])).ret = false
      ∧ (activateBank sampleSession 2
          (worldWith [(20, DcMidiData.ofHex "F0 00 01 55 42 08 02 F7")])).world.sent = [] :=
  ⟨by decide,
    activateBank_refused sampleSession 2
      (worldWith [(20, DcMidiData.ofHex "F0 00 01 55 42 08 02 F7")]) (by decide)⟩

/-- The activate-then-deactivate sequence in terms of the inbound stream. -/
theorem activateSequence_spec (s : DcBootControl) (a aOk d dOk : String) (w : World) :
    ((activateSequence s a aOk d dOk w).ret = true
        ↔ (awaitMatch (pat aOk) 1000 w.inbound).1.isSome = true
          ∧ (awaitMatch (pat dOk) 1000 (awaitMatch (pat aOk) 1000 w.inbound).2).1.isSome = true)
      ∧ (activateSequence s a aOk d dOk w).world.sent
          = w.sent ++ (if (awaitMatch (pat aOk) 1000 w.inbound).1.isSome
              then [DcMidiData.ofHex a, DcMidiData.ofHex d] else [DcMidiData.ofHex a]) := by
  unfold activateSequence
  have hs : ∀ (t : DcMidiTrigger) (p : Pattern), t.setPattern p = DcMidiTrigger.arm p :=
    fun _ _ => rfl
  simp only [hs, wait_arm, World.dataOutThrottled]
  rcases h1 : awaitMatch (pat aOk) 1000 w.inbound with ⟨o1, rest1⟩
  cases o1 with
  | none => simp [h1]
  | some m1 =>
    simp only [h1]
    rcases h2 : awaitMatch (pat dOk) 1000 rest1 with ⟨o2, rest2⟩
    cases o2 <;> simp [h2]

/-- C7: in normal mode with the device in boot code, activateBank(n) for n = 0 and n = 1 hands
to the outbound port, after the boot-code probe, the "activate bank n" command and then, only
when the activate-success response arrived within its wait of 1000 ms, the "deactivate bank
1-n" command, and nothing else; it returns true exactly when both waits succeed. -/
theorem activateBank_activate_then_deactivate (s : DcBootControl) (w : World)
    (hb : s.blindMode = false) (hboot : (isBootcode s w).ret = true) :
    (((activateBank s 0 w).ret = true
        ↔ (awaitMatch (pat DCBC_ACTIVATE_BANK0_SUCCESS) 1000
              (isBootcode s w).world.inbound).1.isSome = true
          ∧ (awaitMatch (pat DCBC_DEACTIVATE_BANK1_SUCCESS) 1000
              (awaitMatch (pat DCBC_ACTIVATE_BANK0_SUCCESS) 1000
                (isBootcode s w).world.inbound).2).1.isSome = true)
      ∧ (activateBank s 0 w).world.sent
          = w.sent ++ DcMidiData.ofHex CMD_GET_BANK0_INFO ::
              (if (awaitMatch (pat DCBC_ACTIVATE_BANK0_SUCCESS) 1000
                    (isBootcode s w).world.inbound).1.isSome
                then [DcMidiData.ofHex DCBC_ACTIVATE_BANK0, DcMidiData.ofHex DCBC_DEACTIVATE_BANK1]
                else [DcMidiData.ofHex DCBC_ACTIVATE_BANK0]))
    ∧ (((activateBank s 1 w).ret = true
        ↔ (awaitMatch (pat DCBC_ACTIVATE_BANK1_SUCCESS) 1000
              (isBootcode s w).world.inbound).1.isSome = true
          ∧ (awaitMatch (pat DCBC_DEACTIVATE_BANK0_SUCCESS) 1000
              (awaitMatch (pat DCBC_ACTIVATE_BANK1_SUCCESS) 1000
                (isBootcode s w).world.inbound).2).1.isSome = true)
      ∧ (activateBank s 1 w).world.sent
          = w.sent ++ DcMidiData.ofHex CMD_GET_BANK0_INFO ::
              (if (awaitMatch (pat DCBC_ACTIVATE_BANK1_SUCCESS) 1000
                    (isBootcode s w).world.inbound).1.isSome
                then [DcMidiData.ofHex DCBC_ACTIVATE_BANK1, DcMidiData.ofHex DCBC_DEACTIVATE_BANK0]
                else [DcMidiData.ofHex DCBC_ACTIVATE_BANK1])) := by
  have e0 : activateBank s 0 w
      = activateSequence (isBootcode s w).self DCBC_ACTIVATE_BANK0 DCBC_ACTIVATE_BANK0_SUCCESS
          DCBC_DEACTIVATE_BANK1 DCBC_DEACTIVATE_BANK1_SUCCESS (isBootcode s w).world := by
    unfold activateBank
    simp [hb, hboot]
  have e1 : activateBank s 1 w
      = activateSequence (isBootcode s w).self DCBC_ACTIVATE_BANK1 DCBC_ACTIVATE_BANK1_SUCCESS
          DCBC_DEACTIVATE_BANK0 DCBC_DEACTIVATE_BANK0_SUCCESS (isBootcode s w).world := by
    unfold activateBank
    simp [hb, hboot]
  rw [e0, e1]
  have q0 := activateSequence_spec (isBootcode s w).self DCBC_ACTIVATE_BANK0
    DCBC_ACTIVATE_BANK0_SUCCESS DCBC_DEACTIVATE_BANK1 DCBC_DEACTIVATE_BANK1_SUCCESS
    (isBootcode s w).world
  have q1 := activateSequence_spec (isBootcode s w).self DCBC_ACTIVATE_BANK1
    DCBC_ACTIVATE_BANK1_SUCCESS DCBC_DEACTIVATE_BANK0 DCBC_DEACTIVATE_BANK0_SUCCESS
    (isBootcode s w).world
  rw [(isBootcode_world s w).1] at q0 q1
  refine ⟨⟨q0.1, ?_⟩, ⟨q1.1, ?_⟩⟩
  · rw [q0.2]; simp
  · rw [q1.2]; simp

/-- C7, on a device in boot code that answers the probe after 20 ms, the activation of bank 1
after a further 150 ms and the deactivation of bank 0 after another 150 ms: the call returns
true. -/
theorem activateBank_activate_then_deactivate_witness :
    sampleSession.blindMode = false
      ∧ (isBootcode sampleSession (worldWith [(20, DcMidiData.ofHex "F0 00 01 55 42 08 02 F7"),
          (150, DcMidiData.ofHex "F0 00 01 55 42 03 00 F7"),
          (150, DcMidiData.ofHex "F0 00 01 55 42 04 00 F7")])).ret = true
      ∧ (activateBank sampleSession 1 (worldWith [(20, DcMidiData.ofHex "F0 00 01 55 42 08 02 F7"),
          (150, DcMidiData.ofHex "F0 00 01 55 42 03 00 F7"),
          (150, DcMidiData.ofHex "F0 00 01 55 42 04 00 F7")])).ret = true :=
  ⟨by decide, by decide,
    ((activateBank_activate_then_deactivate sampleSession
      (worldWith [(20, DcMidiData.ofHex "F0 00 01 55 42 08 02 F7"),
          (150, DcMidiData.ofHex "F0 00 01 55 42 03 00 F7"),
          (150, DcMidiData.ofHex "F0 00 01 55 42 04 00 F7")]) (by decide) (by decide)).2.1).mpr
      ⟨by decide, by decide⟩⟩

/-! ## Facts about enableBootcode -/

/-- What identify hands to the outbound port, and what it leaves of the session. -/
theorem identify_effect (api : IdentApi) (s : DcBootControl) (id : Option DcMidiDevIdent)
    (w : World) :
    (identify api s id w).world.sent = w.sent ++ [DcMidiData.ofHex "F0 7E 7F 06 01 F7"]
      ∧ (identify api s id w).self.blindMode = s.blindMode
      ∧ ((identify api s id w).ret.1 = true → (identify api s id w).self = s) := by
  unfold identify
  simp only [wait_arm, World.dataOut]
  rcases h : awaitMatch (pat (if s.blindMode then "F0 7E .. 06" else "F0 7E .. 06 02 00 01 55"))
      3000 w.inbound with ⟨o, rest⟩
  cases o with
  | none => simp [h, lastErrorMsg]
  | some m =>
    cases id with
    | none => simp [h]
    | some i =>
      simp only [h, DcMidiTrigger.dequeue, if_true]
      split <;> simp [World.dclog]

/-- What makePrivateResetCmd hands to the outbound port, the shape of its result, and what it
leaves of the session. -/
theorem makePrivateResetCmd_effect (api : IdentApi) (s : DcBootControl) (w : World) :
    (makePrivateResetCmd api s w).world.sent = w.sent ++ [DcMidiData.ofHex "F0 7E 7F 06 01 F7"]
      ∧ (makePrivateResetCmd api s w).self.blindMode = s.blindMode
      ∧ ((makePrivateResetCmd api s w).ret.length ≠ 0 →
          (makePrivateResetCmd api s w).self = s
          ∧ ∃ f p : Byte, (makePrivateResetCmd api s w).ret = [0xF0, 0x00, 0x01, 0x55, f, p, 0x1B, 0xF7]) := by
  have I := identify_effect api s (some api.fresh) w
  unfold makePrivateResetCmd
  cases hr : (identify api s (some api.fresh) w).ret.1
  · simp [hr, I.1, I.2.1, World.dclog]
  · simp only [hr, Bool.true_eq_false, if_false]
    refine ⟨I.1, I.2.1, fun _ => ⟨I.2.2 hr, _, _, rfl⟩⟩

/-- The probe loop with at least one iteration allowed: the number `k` of probes sent is the
first index at which, `20 * k` ms into the loop, the trigger holds a match, or the number of
iterations allowed when there is none. -/
theorem probeLoop_spec (n : Nat) :
    ∀ (rd : DcMidiData) (tc : DcMidiTrigger) (w : World),
      ∃ k : Nat, 1 ≤ k ∧ k ≤ n + 1
        ∧ (probeLoop (n + 1) rd tc w).world.sent
            = w.sent ++ List.replicate k (DcMidiData.ofHex CMD_ENABLE_RECOVERY)
        ∧ (probeLoop (n + 1) rd tc w).world.log = w.log
        ∧ (∀ j, 1 ≤ j → j < k → (elapse (20 * j) tc w.inbound).1.queue = [])
        ∧ (k = n + 1 ∨ (elapse (20 * k) tc w.inbound).1.queue ≠ [])
        ∧ (probeLoop (n + 1) rd tc w).responceData
            = ((elapse (20 * k) tc w.inbound).1.queue.head?).getD rd := by
  induction n with
  | zero =>
    intro rd tc w
    refine ⟨1, le_refl _, le_refl _, ?_⟩
    unfold probeLoop
    simp only [msleep, World.dataOut, DcMidiTrigger.dequeue]
    cases hq : (elapse 20 tc w.inbound).1.queue with
    | nil => simp [probeLoop, hq]; omega
    | cons m q => simp [hq]; omega
  | succ n ih =>
    intro rd tc w
    cases hq : (elapse 20 tc w.inbound).1.queue with
    | cons m q =>
      refine ⟨1, le_refl _, by omega, ?_⟩
      rw [probeLoop]
      simp only [msleep, World.dataOut, DcMidiTrigger.dequeue, hq]
      simp [hq]
      omega
    | nil =>
      obtain ⟨k, hk1, hk2, hsent, hlog, hbefore, hlast, hrd⟩ :=
        ih rd (elapse 20 tc w.inbound).1
          { inbound := (elapse 20 tc w.inbound).2
            sent := w.sent ++ [DcMidiData.ofHex CMD_ENABLE_RECOVERY]
            log := w.log }
      have hstep : probeLoop (n + 1 + 1) rd tc w
          = probeLoop (n + 1) rd (elapse 20 tc w.inbound).1
              { inbound := (elapse 20 tc w.inbound).2
                sent := w.sent ++ [DcMidiData.ofHex CMD_ENABLE_RECOVERY]
                log := w.log } := by
        rw [probeLoop]
        simp only [msleep, World.dataOut, DcMidiTrigger.dequeue, hq]
      have hadd : ∀ j, elapse (20 * (j + 1)) tc w.inbound
          = elapse (20 * j) (elapse 20 tc w.inbound).1 (elapse 20 tc w.inbound).2 := by
        intro j
        have e : 20 * (j + 1) = 20 + 20 * j := by ring
        rw [e]
        exact elapse_add (20 * j) w.inbound 20 tc
      refine ⟨k + 1, by omega, by omega, ?_, ?_, ?_, ?_, ?_⟩
      · rw [hstep, hsent, List.replicate_succ]
        simp
      · rw [hstep, hlog]
      · intro j hj1 hj2
        obtain ⟨i, rfl⟩ : ∃ i, j = i + 1 := ⟨j - 1, by omega⟩
        by_cases hi : i = 0
        · subst hi
          simpa using hq
        · rw [hadd]
          exact hbefore i (by omega) (by omega)
      · rcases hlast with h | h
        · left; omega
        · right; rw [hadd]; exact h
      · rw [hstep, hrd, hadd]

/-- The middle of enableBootcode: the private reset, then `k` probes, where `k` is the first
index at which, `100 + 20 * k` ms after the reset was sent, the trigger holds a match, or 40
when there is none. -/
theorem enableBootcodeProbe_spec (s : DcBootControl) (priRst : DcMidiData) (w : World) :
    ∃ k : Nat, 1 ≤ k ∧ k ≤ 40
      ∧ (enableBootcodeProbe s priRst w).world.sent
          = w.sent ++ priRst :: List.replicate k (DcMidiData.ofHex CMD_ENABLE_RECOVERY)
      ∧ (∀ j, 1 ≤ j → j < k →
          (elapse (100 + 20 * j)
            (DcMidiTrigger.arm
              (pat (if s.blindMode then "F0 00 01 55" else RESPONCE_ENABLE_RECOVERY_ANY)))
            w.inbound).1.queue = [])
      ∧ (k = 40 ∨
          (elapse (100 + 20 * k)
            (DcMidiTrigger.arm
              (pat (if s.blindMode then "F0 00 01 55" else RESPONCE_ENABLE_RECOVERY_ANY)))
            w.inbound).1.queue ≠ [])
      ∧ (enableBootcodeProbe s priRst w).responceData
          = ((elapse (100 + 20 * k)
              (DcMidiTrigger.arm
                (pat (if s.blindMode then "F0 00 01 55" else RESPONCE_ENABLE_RECOVERY_ANY)))
              w.inbound).1.queue.head?).getD [] := by
  unfold enableBootcodeProbe
  simp only [msleep]
  have hinb : (World.dataOut
      (if s.blindMode = true then w.dclog ["Attempting to enable boot code in blind mode"] else w)
      priRst).inbound = w.inbound := by
    split_ifs <;> rfl
  have hsent : (World.dataOut
      (if s.blindMode = true then w.dclog ["Attempting to enable boot code in blind mode"] else w)
      priRst).sent = w.sent ++ [priRst] := by
    split_ifs <;> rfl
  generalize World.dataOut
      (if s.blindMode = true then w.dclog ["Attempting to enable boot code in blind mode"] else w)
      priRst = W at hinb hsent ⊢
  generalize DcMidiTrigger.arm
      (pat (if s.blindMode then "F0 00 01 55" else RESPONCE_ENABLE_RECOVERY_ANY)) = tc
  obtain ⟨k, hk1, hk2, hs, _, hbefore, hlast, hrd⟩ := probeLoop_spec 39 []
    (elapse 100 tc W.inbound).1
    ⟨(elapse 100 tc W.inbound).2, W.sent, W.log⟩
  dsimp only at hs hbefore hlast hrd
  rw [← hinb]
  refine ⟨k, hk1, hk2, ?_, ?_, ?_, ?_⟩
  · exact hs.trans (by rw [hsent]; simp)
  · intro j hj1 hj2
    rw [elapse_add]
    exact hbefore j hj1 hj2
  · rcases hlast with h | h
    · left; exact h
    · right; rw [elapse_add]; exact h
  · exact hrd.trans (by rw [elapse_add])

/-- What the end of enableBootcode hands to the outbound port: nothing but, at most, one
boot-code probe and one reset command. -/
theorem enableBootcodeFinish_sent (s : DcBootControl) (rd : DcMidiData) (w : World) :
    ∃ tail : List DcMidiData,
      (enableBootcodeFinish s rd w).world.sent = w.sent ++ tail
        ∧ ∀ m ∈ tail, m = DcMidiData.ofHex CMD_GET_BANK0_INFO
            ∨ m = DcMidiData.ofHex "F0 00 01 55 42 01 F7" := by
  unfold enableBootcodeFinish
  by_cases hb : s.blindMode = true
  · exact ⟨[], by simp [hb, World.dclog], by simp⟩
  · by_cases ha : rd.match (pat RESPONCE_ENABLE_RECOVERY_ACK) = true
    · cases hv : (isBootcode s w).ret
      · exact ⟨[DcMidiData.ofHex CMD_GET_BANK0_INFO, DcMidiData.ofHex "F0 00 01 55 42 01 F7"],
          by simp [hb, ha, hv, World.dclog, World.dataOut, (isBootcode_world s w).1], by simp⟩
      · exact ⟨[DcMidiData.ofHex CMD_GET_BANK0_INFO],
          by simp [hb, ha, hv, World.dclog, (isBootcode_world s w).1], by simp⟩
    · by_cases hr : rd.match (pat RESPONCE_ENABLE_RECOVERY_REJECTED) = true
      · exact ⟨[], by simp [hb, ha, hr, World.dclog], by simp⟩
      · by_cases hf : rd.match (pat RESPONCE_ENABLE_RECOVERY_FAILED) = true
        · exact ⟨[], by simp [hb, ha, hr, hf, World.dclog], by simp⟩
        · exact ⟨[DcMidiData.ofHex "F0 00 01 55 42 01 F7"],
            by simp [hb, ha, hr, hf, World.dclog, World.dataOut], by simp⟩

/-- The call enableBootcode on a device that is not in boot code and whose private reset
could be built, as its middle followed by its end. -/
theorem enableBootcode_unfold (api : IdentApi) (s : DcBootControl) (w : World)
    (hnb : (isBootcode s w).ret = false)
    (hp : (makePrivateResetCmd api s (isBootcode s w).world).ret.length ≠ 0) :
    enableBootcode api s w
      = enableBootcodeFinish s
          (enableBootcodeProbe s (makePrivateResetCmd api s (isBootcode s w).world).ret
            (makePrivateResetCmd api s (isBootcode s w).world).world).responceData
          (enableBootcodeProbe s (makePrivateResetCmd api s (isBootcode s w).world).ret
            (makePrivateResetCmd api s (isBootcode s w).world).world).world := by
  have hs := ((makePrivateResetCmd_effect api s (isBootcode s w).world).2.2 hp).1
  unfold enableBootcode
  simp only [hnb, Bool.false_eq_true, if_false, (isBootcode_world s w).2.2, hp, hs]

/-- C8: when the device is not in boot code and the private-reset command could be built,
enableBootcode hands to the outbound port the boot-code probe, the identity request, the
private-reset command, then `k` "enable recovery" commands, then at most a boot-code probe and
a reset command; so the private-reset command is sent exactly once and before every probe,
and "enable recovery" exactly `k` times. Here `k` lies in 1..40 and is the first index at
which, `100 + 20 * k` ms after the reset was sent, a matching response has reached the
trigger (so that it is dequeued after probe `k`), or 40 when none is ever dequeued. -/
theorem enableBootcode_reset_then_probes (api : IdentApi) (s : DcBootControl) (w : World)
    (hnb : (isBootcode s w).ret = false)
    (hp : (makePrivateResetCmd api s (isBootcode s w).world).ret.length ≠ 0) :
    ∃ (k : Nat) (tail : List DcMidiData), 1 ≤ k ∧ k ≤ 40
      ∧ (enableBootcode api s w).world.sent
          = w.sent ++ ([DcMidiData.ofHex CMD_GET_BANK0_INFO, DcMidiData.ofHex "F0 7E 7F 06 01 F7",
                (makePrivateResetCmd api s (isBootcode s w).world).ret]
              ++ List.replicate k (DcMidiData.ofHex CMD_ENABLE_RECOVERY) ++ tail)
      ∧ (∀ m ∈ tail, m = DcMidiData.ofHex CMD_GET_BANK0_INFO
            ∨ m = DcMidiData.ofHex "F0 00 01 55 42 01 F7")
      ∧ List.count (makePrivateResetCmd api s (isBootcode s w).world).ret
          ([DcMidiData.ofHex CMD_GET_BANK0_INFO, DcMidiData.ofHex "F0 7E 7F 06 01 F7",
                (makePrivateResetCmd api s (isBootcode s w).world).ret]
              ++ List.replicate k (DcMidiData.ofHex CMD_ENABLE_RECOVERY) ++ tail) = 1
      ∧ List.count (DcMidiData.ofHex CMD_ENABLE_RECOVERY)
          ([DcMidiData.ofHex CMD_GET_BANK0_INFO, DcMidiData.ofHex "F0 7E 7F 06 01 F7",
                (makePrivateResetCmd api s (isBootcode s w).world).ret]
              ++ List.replicate k (DcMidiData.ofHex CMD_ENABLE_RECOVERY) ++ tail) = k
      ∧ (∀ j, 1 ≤ j → j < k →
          (elapse (100 + 20 * j)
            (DcMidiTrigger.arm
              (pat (if s.blindMode then "F0 00 01 55" else RESPONCE_ENABLE_RECOVERY_ANY)))
            (makePrivateResetCmd api s (isBootcode s w).world).world.inbound).1.queue = [])
      ∧ (k = 40 ∨
          (elapse (100 + 20 * k)
            (DcMidiTrigger.arm
              (pat (if s.blindMode then "F0 00 01 55" else RESPONCE_ENABLE_RECOVERY_ANY)))
            (makePrivateResetCmd api s (isBootcode s w).world).world.inbound).1.queue ≠ []) := by
  obtain ⟨hsentP, _, hshape⟩ := makePrivateResetCmd_effect api s (isBootcode s w).world
  obtain ⟨_, f, p, hpri⟩ := hshape hp
  obtain ⟨k, hk1, hk2, hsentL, hbefore, hlast, _⟩ := enableBootcodeProbe_spec s
    (makePrivateResetCmd api s (isBootcode s w).world).ret
    (makePrivateResetCmd api s (isBootcode s w).world).world
  obtain ⟨tail, hsentF, htail⟩ := enableBootcodeFinish_sent s
    (enableBootcodeProbe s (makePrivateResetCmd api s (isBootcode s w).world).ret
      (makePrivateResetCmd api s (isBootcode s w).world).world).responceData
    (enableBootcodeProbe s (makePrivateResetCmd api s (isBootcode s w).world).ret
      (makePrivateResetCmd api s (isBootcode s w).world).world).world
  have hG : DcMidiData.ofHex CMD_GET_BANK0_INFO = [0xF0, 0x00, 0x01, 0x55, 0x42, 0x08, 0xF7] := by
    decide
  have hI : DcMidiData.ofHex "F0 7E 7F 06 01 F7" = [0xF0, 0x7E, 0x7F, 0x06, 0x01, 0xF7] := by
    decide
  have hE : DcMidiData.ofHex CMD_ENABLE_RECOVERY = [0xF0, 0x00, 0x01, 0x55, 0x42, 0x11, 0xF7] := by
    decide
  have hR : DcMidiData.ofHex "F0 00 01 55 42 01 F7" = [0xF0, 0x00, 0x01, 0x55, 0x42, 0x01, 0xF7] := by
    decide
  have hpt : (makePrivateResetCmd api s (isBootcode s w).world).ret ∉ tail := by
    intro hmem
    rcases htail _ hmem with h | h
    · rw [hpri, hG] at h; simp at h
    · rw [hpri, hR] at h; simp at h
  have het : DcMidiData.ofHex CMD_ENABLE_RECOVERY ∉ tail := by
    intro hmem
    rcases htail _ hmem with h | h
    · rw [hE, hG] at h; simp at h
    · rw [hE, hR] at h; simp at h
  refine ⟨k, tail, hk1, hk2, ?_, htail, ?_, ?_, hbefore, hlast⟩
  · rw [enableBootcode_unfold api s w hnb hp, hsentF, hsentL, hsentP, (isBootcode_world s w).1]
    simp
  · rw [List.count_append, List.count_append, List.count_eq_zero.mpr hpt, List.count_replicate]
    rw [hpri, hG, hI, hE]
    simp
  · rw [List.count_append, List.count_append, List.count_eq_zero.mpr het, List.count_replicate]
    rw [hpri, hG, hI, hE]
    simp

/-- C8, on a device whose ACK arrives between the fourth and the fifth probe: exactly five
"enable recovery" commands follow the private reset, and the call returns true. -/
theorem enableBootcode_reset_then_probes_witness :
    (isBootcode sampleSession (worldEntering RESPONCE_ENABLE_RECOVERY_ACK)).ret = false
      ∧ (makePrivateResetCmd sampleApi sampleSession
          (isBootcode sampleSession (worldEntering RESPONCE_ENABLE_RECOVERY_ACK)).world).ret.length
          ≠ 0
      ∧ (enableBootcode sampleApi sampleSession
          (worldEntering RESPONCE_ENABLE_RECOVERY_ACK)).world.sent
          = [DcMidiData.ofHex "F0 00 01 55 42 08 F7", DcMidiData.ofHex "F0 7E 7F 06 01 F7",
              DcMidiData.ofHex "F0 00 01 55 12 03 1B F7",
              DcMidiData.ofHex "F0 00 01 55 42 11 F7", DcMidiData.ofHex "F0 00 01 55 42 11 F7",
              DcMidiData.ofHex "F0 00 01 55 42 11 F7", DcMidiData.ofHex "F0 00 01 55 42 11 F7",
              DcMidiData.ofHex "F0 00 01 55 42 11 F7", DcMidiData.ofHex "F0 00 01 55 42 08 F7"]
      ∧ (enableBootcode sampleApi sampleSession
          (worldEntering RESPONCE_ENABLE_RECOVERY_ACK)).ret = true
      ∧ ∃ k : Nat, 1 ≤ k ∧ k ≤ 40 :=
  ⟨by decide, by decide, by decide, by decide,
    let ⟨k, _, h1, h2, _⟩ := enableBootcode_reset_then_probes sampleApi sampleSession
      (worldEntering RESPONCE_ENABLE_RECOVERY_ACK) (by decide) (by decide)
    ⟨k, h1, h2⟩⟩

/-- The call enableBootcode on a device that is not in boot code and whose private reset
could be built, as the decision on the state in which the probe loop was left. -/
theorem enableBootcode_eq_finish (api : IdentApi) (s : DcBootControl) (w : World)
    (hnb : (isBootcode s w).ret = false)
    (hp : (makePrivateResetCmd api s (isBootcode s w).world).ret.length ≠ 0) :
    enableBootcode api s w
      = enableBootcodeFinish s (enableBootcodeLoopExit api s w).responceData
          (enableBootcodeLoopExit api s w).world := by
  have hs := ((makePrivateResetCmd_effect api s (isBootcode s w).world).2.2 hp).1
  unfold enableBootcode enableBootcodeLoopExit
  simp only [hnb, Bool.false_eq_true, if_false, (isBootcode_world s w).2.2, hp, hs]

/-- A message cannot match both the ACK text and the REJECTED or FAILED text. -/
theorem not_ack_of_rejected_or_failed (md : DcMidiData)
    (h : md.match (pat RESPONCE_ENABLE_RECOVERY_REJECTED) = true
      ∨ md.match (pat RESPONCE_ENABLE_RECOVERY_FAILED) = true) :
    md.match (pat RESPONCE_ENABLE_RECOVERY_ACK) = false := by
  have hA : pat RESPONCE_ENABLE_RECOVERY_ACK = [.digit 15, .digit 0, .digit 0, .digit 0,
      .digit 0, .digit 1, .digit 5, .digit 5, .digit 4, .digit 2, .digit 1, .digit 1,
      .digit 0, .digit 0, .digit 15, .digit 7] := by decide
  have hR : pat RESPONCE_ENABLE_RECOVERY_REJECTED = [.digit 15, .digit 0, .digit 0, .digit 0,
      .digit 0, .digit 1, .digit 5, .digit 5, .digit 4, .digit 2, .digit 1, .digit 1,
      .digit 0, .digit 1, .digit 15, .digit 7] := by decide
  have hF : pat RESPONCE_ENABLE_RECOVERY_FAILED = [.digit 15, .digit 0, .digit 0, .digit 0,
      .digit 0, .digit 1, .digit 5, .digit 5, .digit 4, .digit 2, .digit 1, .digit 1,
      .digit 0, .digit 2, .digit 15, .digit 7] := by decide
  rw [hA]
  rw [hR, hF] at h
  rcases md with _ | ⟨b0, _ | ⟨b1, _ | ⟨b2, _ | ⟨b3, _ | ⟨b4, _ | ⟨b5, _ | ⟨b6, _ | ⟨b7, rest⟩⟩⟩⟩⟩⟩⟩⟩
  all_goals simp [DcMidiData.match, nibbles, matchNibbles, PTok.ok] at h ⊢
  all_goals omega

/-- A message cannot match both the REJECTED text and the FAILED text. -/
theorem not_rejected_of_failed (md : DcMidiData)
    (h : md.match (pat RESPONCE_ENABLE_RECOVERY_FAILED) = true) :
    md.match (pat RESPONCE_ENABLE_RECOVERY_REJECTED) = false := by
  have hR : pat RESPONCE_ENABLE_RECOVERY_REJECTED = [.digit 15, .digit 0, .digit 0, .digit 0,
      .digit 0, .digit 1, .digit 5, .digit 5, .digit 4, .digit 2, .digit 1, .digit 1,
      .digit 0, .digit 1, .digit 15, .digit 7] := by decide
  have hF : pat RESPONCE_ENABLE_RECOVERY_FAILED = [.digit 15, .digit 0, .digit 0, .digit 0,
      .digit 0, .digit 1, .digit 5, .digit 5, .digit 4, .digit 2, .digit 1, .digit 1,
      .digit 0, .digit 2, .digit 15, .digit 7] := by decide
  rw [hR]
  rw [hF] at h
  rcases md with _ | ⟨b0, _ | ⟨b1, _ | ⟨b2, _ | ⟨b3, _ | ⟨b4, _ | ⟨b5, _ | ⟨b6, _ | ⟨b7, rest⟩⟩⟩⟩⟩⟩⟩⟩
  all_goals simp [DcMidiData.match, nibbles, matchNibbles, PTok.ok] at h ⊢
  all_goals omega

/-- The empty message matches none of the three "enable recovery" response texts. -/
theorem nil_no_recovery_match :
    DcMidiData.match [] (pat RESPONCE_ENABLE_RECOVERY_ACK) = false
      ∧ DcMidiData.match [] (pat RESPONCE_ENABLE_RECOVERY_REJECTED) = false
      ∧ DcMidiData.match [] (pat RESPONCE_ENABLE_RECOVERY_FAILED) = false := by
  decide

/-- C9: in normal mode, with the state in which the probe loop was left: when the response
data match the ACK text, the call returns what the follow-up isBootcode returns, and after
that probe hands the reset command F0 00 01 55 42 01 F7 to the outbound port exactly when the
verification failed; when no response was received (the response data are empty), the call
returns false and sends that reset command once; when the response data match the REJECTED
or the FAILED text, the call returns false and sends nothing. -/
theorem enableBootcode_after_probes (api : IdentApi) (s : DcBootControl) (w : World)
    (hb : s.blindMode = false) (hnb : (isBootcode s w).ret = false)
    (hp : (makePrivateResetCmd api s (isBootcode s w).world).ret.length ≠ 0) :
    ((enableBootcodeLoopExit api s w).responceData.match (pat RESPONCE_ENABLE_RECOVERY_ACK) = true →
        (enableBootcode api s w).ret
            = (isBootcode s (enableBootcodeLoopExit api s w).world).ret
          ∧ (enableBootcode api s w).world.sent
            = (enableBootcodeLoopExit api s w).world.sent
                ++ (if (isBootcode s (enableBootcodeLoopExit api s w).world).ret
                    then [DcMidiData.ofHex CMD_GET_BANK0_INFO]
                    else [DcMidiData.ofHex CMD_GET_BANK0_INFO,
                      DcMidiData.ofHex "F0 00 01 55 42 01 F7"]))
      ∧ ((enableBootcodeLoopExit api s w).responceData = [] →
          (enableBootcode api s w).ret = false
            ∧ (enableBootcode api s w).world.sent
              = (enableBootcodeLoopExit api s w).world.sent
                  ++ [DcMidiData.ofHex "F0 00 01 55 42 01 F7"])
      ∧ ((enableBootcodeLoopExit api s w).responceData.match
              (pat RESPONCE_ENABLE_RECOVERY_REJECTED) = true
            ∨ (enableBootcodeLoopExit api s w).responceData.match
              (pat RESPONCE_ENABLE_RECOVERY_FAILED) = true →
          (enableBootcode api s w).ret = false
            ∧ (enableBootcode api s w).world.sent
              = (enableBootcodeLoopExit api s w).world.sent) := by
  rw [enableBootcode_eq_finish api s w hnb hp]
  generalize (enableBootcodeLoopExit api s w).responceData = rd
  generalize (enableBootcodeLoopExit api s w).world = wl
  refine ⟨?_, ?_, ?_⟩
  · intro ha
    unfold enableBootcodeFinish
    cases hv : (isBootcode s wl).ret
    · simp [hb, ha, hv, World.dclog, World.dataOut, (isBootcode_world s wl).1]
    · simp [hb, ha, hv, World.dclog, (isBootcode_world s wl).1]
  · intro hnil
    subst hnil
    unfold enableBootcodeFinish
    simp [hb, nil_no_recovery_match, World.dclog, World.dataOut]
  · intro hrf
    have hna := not_ack_of_rejected_or_failed rd hrf
    unfold enableBootcodeFinish
    by_cases hr : rd.match (pat RESPONCE_ENABLE_RECOVERY_REJECTED) = true
    · simp [hb, hna, hr, World.dclog]
    · have hf : rd.match (pat RESPONCE_ENABLE_RECOVERY_FAILED) = true := by
        rcases hrf with h | h
        · exact absurd h hr
        · exact h
      simp [hb, hna, hr, hf, World.dclog]

/-- C9, on a device whose ACK arrives between the fourth and the fifth probe and which then
answers the verification probe: the call returns what the verification returns, true. -/
theorem enableBootcode_after_probes_witness :
    sampleSession.blindMode = false
      ∧ (isBootcode sampleSession (worldEntering RESPONCE_ENABLE_RECOVERY_ACK)).ret = false
      ∧ (makePrivateResetCmd sampleApi sampleSession
          (isBootcode sampleSession (worldEntering RESPONCE_ENABLE_RECOVERY_ACK)).world).ret.length
          ≠ 0
      ∧ (enableBootcode sampleApi sampleSession
          (worldEntering RESPONCE_ENABLE_RECOVERY_ACK)).ret
          = (isBootcode sampleSession (enableBootcodeLoopExit sampleApi sampleSession
              (worldEntering RESPONCE_ENABLE_RECOVERY_ACK)).world).ret
      ∧ (enableBootcode sampleApi sampleSession
          (worldEntering RESPONCE_ENABLE_RECOVERY_ACK)).ret = true :=
  ⟨by decide, by decide, by decide,
    (((enableBootcode_after_probes sampleApi sampleSession
      (worldEntering RESPONCE_ENABLE_RECOVERY_ACK) (by decide) (by decide) (by decide)).1)
      (by decide)).1,
    by decide⟩

/-- C10, at a device that answers "enable recovery" with REJECTED, and at one that answers
with FAILED: the call returns false and getLastError() is the same text as before the call,
the same in both cases. -/
theorem enableBootcode_rejected_records_no_error :
    (enableBootcodeLoopExit sampleApi sampleSession
        (worldEntering RESPONCE_ENABLE_RECOVERY_REJECTED)).responceData
        = DcMidiData.ofHex "F0 00 01 55 42 11 01 F7"
      ∧ (enableBootcode sampleApi sampleSession
          (worldEntering RESPONCE_ENABLE_RECOVERY_REJECTED)).ret = false
      ∧ (enableBootcode sampleApi sampleSession
          (worldEntering RESPONCE_ENABLE_RECOVERY_REJECTED)).self.getLastError
          = sampleSession.getLastError
      ∧ (enableBootcodeLoopExit sampleApi sampleSession
          (worldEntering RESPONCE_ENABLE_RECOVERY_FAILED)).responceData
          = DcMidiData.ofHex "F0 00 01 55 42 11 02 F7"
      ∧ (enableBootcode sampleApi sampleSession
          (worldEntering RESPONCE_ENABLE_RECOVERY_FAILED)).self.getLastError
          = (enableBootcode sampleApi sampleSession
              (worldEntering RESPONCE_ENABLE_RECOVERY_REJECTED)).self.getLastError := by
  decide

/-- C10, as the code has it: in normal mode, when enableBootcode receives a REJECTED or a
FAILED response it returns false and getLastError() is what it was before the call; the two
cases differ in the text written to the diagnostic log, "The device has rejected the enable
recovery command" against "Device has failed the enabled recovery command". -/
theorem enableBootcode_rejected_or_failed (api : IdentApi) (s : DcBootControl) (w : World)
    (hb : s.blindMode = false) (hnb : (isBootcode s w).ret = false)
    (hp : (makePrivateResetCmd api s (isBootcode s w).world).ret.length ≠ 0) :
    ((enableBootcodeLoopExit api s w).responceData.match
          (pat RESPONCE_ENABLE_RECOVERY_REJECTED) = true →
        (enableBootcode api s w).ret = false
          ∧ (enableBootcode api s w).self.getLastError = s.getLastError
          ∧ (enableBootcode api s w).world.log
            = (enableBootcodeLoopExit api s w).world.log
                ++ [["The device has rejected the enable recovery command"]])
      ∧ ((enableBootcodeLoopExit api s w).responceData.match
            (pat RESPONCE_ENABLE_RECOVERY_FAILED) = true →
          (enableBootcode api s w).ret = false
            ∧ (enableBootcode api s w).self.getLastError = s.getLastError
            ∧ (enableBootcode api s w).world.log
              = (enableBootcodeLoopExit api s w).world.log
                  ++ [["Device has failed the enabled recovery command"]])
      ∧ "The device has rejected the enable recovery command"
          ≠ "Device has failed the enabled recovery command" := by
  rw [enableBootcode_eq_finish api s w hnb hp]
  generalize (enableBootcodeLoopExit api s w).responceData = rd
  generalize (enableBootcodeLoopExit api s w).world = wl
  refine ⟨?_, ?_, by decide⟩
  · intro hr
    have hna := not_ack_of_rejected_or_failed rd (Or.inl hr)
    unfold enableBootcodeFinish
    simp [hb, hna, hr, World.dclog]
  · intro hf
    have hr := not_rejected_of_failed rd hf
    have hna := not_ack_of_rejected_or_failed rd (Or.inr hf)
    unfold enableBootcodeFinish
    simp [hb, hna, hr, hf, World.dclog]

/-- C10 as the code has it, on a device that answers "enable recovery" with REJECTED. -/
theorem enableBootcode_rejected_or_failed_witness :
    sampleSession.blindMode = false
      ∧ (isBootcode sampleSession (worldEntering RESPONCE_ENABLE_RECOVERY_REJECTED)).ret = false
      ∧ (makePrivateResetCmd sampleApi sampleSession
          (isBootcode sampleSession
            (worldEntering RESPONCE_ENABLE_RECOVERY_REJECTED)).world).ret.length ≠ 0
      ∧ (enableBootcode sampleApi sampleSession
          (worldEntering RESPONCE_ENABLE_RECOVERY_REJECTED)).ret = false
      ∧ (enableBootcode sampleApi sampleSession
          (worldEntering RESPONCE_ENABLE_RECOVERY_REJECTED)).self.getLastError
          = sampleSession.getLastError :=
  ⟨by decide, by decide, by decide,
    (((enableBootcode_rejected_or_failed sampleApi sampleSession
      (worldEntering RESPONCE_ENABLE_RECOVERY_REJECTED) (by decide) (by decide) (by decide)).1)
      (by decide)).1,
    (((enableBootcode_rejected_or_failed sampleApi sampleSession
      (worldEntering RESPONCE_ENABLE_RECOVERY_REJECTED) (by decide) (by decide) (by decide)).1)
      (by decide)).2.1⟩

/-! ## Facts about checkPid -/

set_option maxRecDepth 100000 in
/-- The pattern that checkPid arms is the well-formed one for every pid whose two bytes are both
below ten, checked value by value. -/
theorem checkPid_pattern_small_table :
    ((List.range 10).all fun hi => (List.range 10).all fun lo =>
      decide (pat (checkPidResponce (256 * (hi : Int) + (lo : Int))) = pidPattern hi lo))
      = true := by
  decide

/-- The pattern that checkPid arms is the well-formed one when both bytes of pid are at most 9,
where the decimal text of a byte is its single hexadecimal digit. -/
theorem checkPid_pattern_small (hi lo : Nat) (hh : hi ≤ 9) (hl : lo ≤ 9) :
    pat (checkPidResponce (256 * (hi : Int) + (lo : Int))) = pidPattern hi lo := by
  have h := checkPid_pattern_small_table
  rw [List.all_eq_true] at h
  have h1 := h hi (List.mem_range.mpr (by omega))
  rw [List.all_eq_true] at h1
  have h2 := h1 lo (List.mem_range.mpr (by omega))
  exact of_decide_eq_true h2

/-- A message that matches the well-formed pattern for `hi` and `lo` carries these two values
as its bytes 13 and 14. -/
theorem pidPattern_bytes (hi lo : Nat) (m : DcMidiData)
    (h : m.match (pidPattern hi lo) = true) :
    (m.getD 13 0).val = hi ∧ (m.getD 14 0).val = lo := by
  have hP : pat "F0 00 01 55 42 0D 02 00 0F 0F 0F 0F 08" = [.digit 15, .digit 0, .digit 0,
      .digit 0, .digit 0, .digit 1, .digit 5, .digit 5, .digit 4, .digit 2, .digit 0, .digit 13,
      .digit 0, .digit 2, .digit 0, .digit 0, .digit 0, .digit 15, .digit 0, .digit 15,
      .digit 0, .digit 15, .digit 0, .digit 15, .digit 0, .digit 8] := by decide
  unfold pidPattern at h
  rw [hP] at h
  rcases m with _ | ⟨b0, _ | ⟨b1, _ | ⟨b2, _ | ⟨b3, _ | ⟨b4, _ | ⟨b5, _ | ⟨b6, _ | ⟨b7, _ |
    ⟨b8, _ | ⟨b9, _ | ⟨b10, _ | ⟨b11, _ | ⟨b12, _ | ⟨b13, _ | ⟨b14, rest⟩⟩⟩⟩⟩⟩⟩⟩⟩⟩⟩⟩⟩⟩⟩
  all_goals simp [DcMidiData.match, nibbles, matchNibbles, PTok.ok] at h
  obtain ⟨_, _, _, _, _, _, _, _, _, _, _, _, _, _, _, _, _, _, _, _, _, _, _, _, _, _,
    h1, h2, h3, h4, _⟩ := h
  simp only [List.getD_cons_succ, List.getD_cons_zero]
  constructor <;> omega

/-- When both bytes of pid are at most 9, checkPid returns true only on a response whose bytes
13 and 14 are the high and the low byte of pid. -/
theorem checkPid_true_small (s : DcBootControl) (w : World) (hi lo : Nat) (hh : hi ≤ 9)
    (hl : lo ≤ 9) (h : (checkPid s (256 * (hi : Int) + (lo : Int)) w).ret = true) :
    ∃ m : DcMidiData, (awaitMatch (pidPattern hi lo) 400 w.inbound).1 = some m
      ∧ (m.getD 13 0).val = hi ∧ (m.getD 14 0).val = lo := by
  unfold checkPid at h
  simp only [checkPid_pattern_small hi lo hh hl, wait_arm, World.dataOut] at h
  rcases h0 : awaitMatch (pidPattern hi lo) 400 w.inbound with ⟨o, rest⟩
  cases o with
  | none => simp [h0] at h
  | some m =>
    have hm := awaitMatch_match (pidPattern hi lo) m w.inbound 400 (by rw [h0])
    exact ⟨m, rfl, pidPattern_bytes hi lo m hm⟩

/-- C11: for pid = 0x0A00 the text that checkPid arms holds the decimal text "10" of the high
byte behind the literal 0, "... 08 010 00 .. .. F7", which is not the pattern for the parameter
bytes 0A and 00: a response that carries exactly the bytes 0A 00 after the fixed lead is not
matched and checkPid returns false, while a response that carries 01 00 there is matched and
checkPid returns true. -/
theorem checkPid_decimal_text_in_pattern :
    checkPidResponce 0x0A00 = "F0 00 01 55 42 0D 02 00 0F 0F 0F 0F 08 010 00 .. .. F7"
      ∧ (checkPid sampleSession 0x0A00 (worldWith
          [(10, DcMidiData.ofHex "F0 00 01 55 42 0D 02 00 0F 0F 0F 0F 08 0A 00 00 00 F7")])).ret
          = false
      ∧ (checkPid sampleSession 0x0A00 (worldWith
          [(10, DcMidiData.ofHex "F0 00 01 55 42 0D 02 00 0F 0F 0F 0F 08 01 00 00 00 0F 70")])).ret
          = true
      ∧ pat (checkPidResponce 0x0A00) ≠ pidPattern 0x0A 0x00 := by
  decide

/-! ## Facts about the private reset -/

/-- The identity object that identify was given is returned, written or not. -/
theorem identify_some (api : IdentApi) (s : DcBootControl) (i0 : DcMidiDevIdent) (w : World) :
    ∃ i, (identify api s (some i0) w).ret.2 = some i := by
  unfold identify
  simp only [wait_arm, World.dataOut]
  rcases h : awaitMatch (pat (if s.blindMode then "F0 7E .. 06" else "F0 7E .. 06 02 00 01 55"))
      3000 w.inbound with ⟨o, rest⟩
  cases o with
  | none => simp [h]
  | some m =>
    simp only [h, DcMidiTrigger.dequeue, if_true]
    split <;> simp

/-- C12: when identify fails, makePrivateResetCmd returns the empty message and privateReset
returns false after handing only the identity request to the outbound port; enableBootcode on a
device not in boot code for which identify fails returns false after handing only the
boot-code probe and the identity request to the outbound port, no private reset and no "enable
recovery" command; when identify succeeds, makePrivateResetCmd returns the template
F0 00 01 55 vv vv 1B F7 filled with the family and product bytes of the identity, which is not
empty, and privateReset hands the identity request and then exactly that message to the
outbound port and returns true. -/
theorem privateReset_needs_identity (api : IdentApi) (s : DcBootControl) (w : World) :
    ((identify api s (some api.fresh) w).ret.1 = false →
        (makePrivateResetCmd api s w).ret = []
          ∧ (privateReset api s w).ret = false
          ∧ (privateReset api s w).world.sent = w.sent ++ [DcMidiData.ofHex "F0 7E 7F 06 01 F7"])
      ∧ ((isBootcode s w).ret = false →
          (identify api s (some api.fresh) (isBootcode s w).world).ret.1 = false →
          (enableBootcode api s w).ret = false
            ∧ (enableBootcode api s w).world.sent
              = w.sent ++ [DcMidiData.ofHex CMD_GET_BANK0_INFO,
                  DcMidiData.ofHex "F0 7E 7F 06 01 F7"])
      ∧ ((identify api s (some api.fresh) w).ret.1 = true →
          ∃ i : DcMidiDevIdent, (identify api s (some api.fresh) w).ret.2 = some i
            ∧ (makePrivateResetCmd api s w).ret
                = DcMidiData.setData kPrivateResetPartial i.familyByte i.productByte
            ∧ (makePrivateResetCmd api s w).ret
                = [0xF0, 0x00, 0x01, 0x55, i.familyByte, i.productByte, 0x1B, 0xF7]
            ∧ (makePrivateResetCmd api s w).ret ≠ []
            ∧ (privateReset api s w).ret = true
            ∧ (privateReset api s w).world.sent
                = w.sent ++ [DcMidiData.ofHex "F0 7E 7F 06 01 F7",
                    [0xF0, 0x00, 0x01, 0x55, i.familyByte, i.productByte, 0x1B, 0xF7]]) := by
  have hfail : ∀ w0 : World, (identify api s (some api.fresh) w0).ret.1 = false →
      (makePrivateResetCmd api s w0).ret = []
        ∧ (makePrivateResetCmd api s w0).world.sent
            = w0.sent ++ [DcMidiData.ofHex "F0 7E 7F 06 01 F7"] := by
    intro w0 h
    refine ⟨?_, (makePrivateResetCmd_effect api s w0).1⟩
    unfold makePrivateResetCmd
    simp [h]
  refine ⟨?_, ?_, ?_⟩
  · intro h
    obtain ⟨h1, h2⟩ := hfail w h
    refine ⟨h1, ?_, ?_⟩
    · unfold privateReset; dsimp only; rw [h1]; simp
    · unfold privateReset; dsimp only; rw [h1]; simp [h2]
  · intro hnb h
    obtain ⟨h1, h2⟩ := hfail (isBootcode s w).world h
    have e : enableBootcode api s w
        = ⟨false, (makePrivateResetCmd api s (isBootcode s w).world).self,
            (makePrivateResetCmd api s (isBootcode s w).world).world⟩ := by
      unfold enableBootcode
      simp [hnb, (isBootcode_world s w).2.2, h1]
    rw [e]
    refine ⟨rfl, ?_⟩
    show (makePrivateResetCmd api s (isBootcode s w).world).world.sent = _
    rw [h2, (isBootcode_world s w).1]
    simp
  · intro h
    obtain ⟨i, hi⟩ := identify_some api s api.fresh w
    have hm : (makePrivateResetCmd api s w).ret
        = DcMidiData.setData kPrivateResetPartial i.familyByte i.productByte := by
      unfold makePrivateResetCmd
      simp [h, hi]
    have hl : DcMidiData.setData kPrivateResetPartial i.familyByte i.productByte
        = [0xF0, 0x00, 0x01, 0x55, i.familyByte, i.productByte, 0x1B, 0xF7] := rfl
    have hs := (makePrivateResetCmd_effect api s w).1
    refine ⟨i, hi, hm, hm.trans hl, ?_, ?_, ?_⟩
    · rw [hm, hl]; simp
    · unfold privateReset; dsimp only; rw [hm, hl]; simp
    · unfold privateReset; dsimp only; rw [hm, hl]
      simp [World.dataOut, hs]

/-- C12, on a device that never answers the identity request: privateReset returns false. -/
theorem privateReset_needs_identity_witness :
    (identify sampleApi sampleSession (some sampleApi.fresh) (worldWith [])).ret.1 = false
      ∧ (makePrivateResetCmd sampleApi sampleSession (worldWith [])).ret = []
      ∧ (privateReset sampleApi sampleSession (worldWith [])).ret = false
      ∧ (identify sampleApi sampleSession (some sampleApi.fresh)
          (worldWith [(40, sampleIdentReply)])).ret.1 = true
      ∧ (privateReset sampleApi sampleSession (worldWith [(40, sampleIdentReply)])).ret = true
      ∧ (privateReset sampleApi sampleSession (worldWith [(40, sampleIdentReply)])).world.sent
        = [DcMidiData.ofHex "F0 7E 7F 06 01 F7", DcMidiData.ofHex "F0 00 01 55 12 03 1B F7"] :=
  ⟨by decide,
    ((privateReset_needs_identity sampleApi sampleSession (worldWith [])).1 (by decide)).1,
    ((privateReset_needs_identity sampleApi sampleSession (worldWith [])).1 (by decide)).2.1,
    by decide, by decide, by decide⟩

/-! ## Facts about boot-only operations -/

/-- C13, at a device that stays silent on the probe: activateBank(0) and getBootCodeInfo return
false, and each has handed the bank-0-info probe to the outbound port. -/
theorem boot_only_operations_send_probe :
    sampleSession.blindMode = false
      ∧ (isBootcode sampleSession (worldWith [])).ret = false
      ∧ (activateBank sampleSession 0 (worldWith [])).ret = false
      ∧ (activateBank sampleSession 0 (worldWith [])).world.sent
        = [DcMidiData.ofHex "F0 00 01 55 42 08 F7"]
      ∧ (activateBank sampleSession 0 (worldWith [])).world.sent ≠ (worldWith []).sent
      ∧ (getBootCodeInfo sampleApi sampleSession {} (worldWith [])).ret.1 = false
      ∧ (getBootCodeInfo sampleApi sampleSession {} (worldWith [])).world.sent
        ≠ (worldWith []).sent := by
  decide

/-- C13, as the code has it: a boot-only operation attempted while the device is not in boot code
(activateBank with bank number 0 or 1 in normal mode, getBootCodeInfo) returns false, and the
only message it hands to the outbound port is the bank-0-info probe F0 00 01 55 42 08 F7 by
which isBootcode tests the device; getBootCodeInfo leaves the object it was given as it is. -/
theorem boot_only_rejected_after_probe (api : IdentApi) (s : DcBootControl) (w : World)
    (bcInfo : DcBootCodeInfo) (hnb : (isBootcode s w).ret = false) :
    (s.blindMode = false →
        ((activateBank s 0 w).ret = false
          ∧ (activateBank s 0 w).world.sent = w.sent ++ [DcMidiData.ofHex CMD_GET_BANK0_INFO])
        ∧ ((activateBank s 1 w).ret = false
          ∧ (activateBank s 1 w).world.sent = w.sent ++ [DcMidiData.ofHex CMD_GET_BANK0_INFO]))
      ∧ (getBootCodeInfo api s bcInfo w).ret.1 = false
      ∧ (getBootCodeInfo api s bcInfo w).ret.2 = bcInfo
      ∧ (getBootCodeInfo api s bcInfo w).world.sent
          = w.sent ++ [DcMidiData.ofHex CMD_GET_BANK0_INFO] := by
  have hw := (isBootcode_world s w).1
  refine ⟨?_, ?_, ?_, ?_⟩
  · intro hb
    unfold activateBank
    simp [hb, hnb, World.dclog, hw]
  · unfold getBootCodeInfo; simp [hnb]
  · unfold getBootCodeInfo; simp [hnb]
  · unfold getBootCodeInfo; simp [hnb, hw]

/-- C13 as the code has it, on a device that stays silent on the probe. -/
theorem boot_only_rejected_after_probe_witness :
    (isBootcode sampleSession (worldWith [])).ret = false
      ∧ (getBootCodeInfo sampleApi sampleSession {} (worldWith [])).ret.1 = false
      ∧ (getBootCodeInfo sampleApi sampleSession {} (worldWith [])).world.sent
        = [DcMidiData.ofHex "F0 00 01 55 42 08 F7"] :=
  ⟨by decide,
    (boot_only_rejected_after_probe sampleApi sampleSession (worldWith []) {} (by decide)).2.1,
    ((boot_only_rejected_after_probe sampleApi sampleSession (worldWith []) {}
      (by decide)).2.2.2).trans (by decide)⟩

/-! ## Facts about getBootCodeInfo -/

/-- A wait on a trigger whose queue is empty, in terms of the inbound stream. -/
theorem wait_empty (t : DcMidiTrigger) (hq : t.queue = []) (d : Nat) (w : World) :
    t.wait d w
      = match awaitMatch t.pattern d w.inbound with
        | (some m, rest) =>
          ⟨true, { t with queue := [m], count := t.count + 1 }, { w with inbound := rest }⟩
        | (none, rest) => ⟨false, t, { w with inbound := rest }⟩ := by
  unfold DcMidiTrigger.wait
  simp only [hq, List.isEmpty_nil, if_true]
  rcases h : awaitMatch t.pattern d w.inbound with ⟨o, rest⟩
  cases o with
  | none => rfl
  | some m =>
    have hm : m.match t.pattern = true := awaitMatch_match t.pattern m w.inbound d (by rw [h])
    simp [DcMidiTrigger.handle, hm, hq]

/-- A bank for which isOk() holds after init was parsed as valid. -/
theorem init_valid_of_isOk (md : DcMidiData) (h : (DcCodeBankInfo.init md).isOk = true) :
    (DcCodeBankInfo.init md).valid = true := by
  unfold DcCodeBankInfo.init at h ⊢
  split_ifs at h ⊢ <;> simp_all [DcCodeBankInfo.isOk, DcCodeBankInfo.clear]

/-- A message that matches the bank-info text has 0x08 or 0x09 as its byte 5. -/
theorem bank_info_byte5 (m : DcMidiData) (h : m.match (pat RESPONCE_BANK_INFO_ANY) = true) :
    m.getD 5 0 = 0x08 ∨ m.getD 5 0 = 0x09 := by
  have hP : pat RESPONCE_BANK_INFO_ANY = [.digit 15, .digit 0, .digit 0, .digit 0,
      .digit 0, .digit 1, .digit 5, .digit 5, .digit 4, .digit 2, .digit 0, .oneOf [8, 9],
      .any, .any, .any, .any] := by decide
  rw [hP] at h
  rcases m with _ | ⟨b0, _ | ⟨b1, _ | ⟨b2, _ | ⟨b3, _ | ⟨b4, _ | ⟨b5, rest⟩⟩⟩⟩⟩⟩
  all_goals simp [DcMidiData.match, nibbles, matchNibbles, PTok.ok] at h
  obtain ⟨_, _, _, _, _, _, _, _, _, _, h10, h11, _⟩ := h
  simp only [List.getD_cons_succ, List.getD_cons_zero]
  rcases h11 with h11 | h11
  · left; apply Fin.ext; show (b5 : Nat) = 8; omega
  · right; apply Fin.ext; show (b5 : Nat) = 9; omega

/-- The call getBootCodeInfo on a device in boot code, in terms of the inbound stream after its
identity request. -/
theorem getBootCodeInfo_spec (api : IdentApi) (s : DcBootControl) (bcInfo : DcBootCodeInfo)
    (w : World) (hboot : (isBootcode s w).ret = true) :
    (getBootCodeInfo api s bcInfo w).world.sent
        = (identify api s (some api.fresh) (isBootcode s w).world).world.sent
            ++ [DcMidiData.ofHex CMD_GET_BANK0_INFO, DcMidiData.ofHex CMD_GET_BANK1_INFO]
      ∧ (getBootCodeInfo api s bcInfo w).ret.2.bank0
        = (awaitMatch (pat RESPONCE_BANK_INFO_ANY) 500
            (identify api s (some api.fresh) (isBootcode s w).world).world.inbound).1.elim
            DcCodeBankInfo.clear DcCodeBankInfo.init
      ∧ (getBootCodeInfo api s bcInfo w).ret.2.bank1
        = (awaitMatch (pat RESPONCE_BANK_INFO_ANY) 500
            (awaitMatch (pat RESPONCE_BANK_INFO_ANY) 500
              (identify api s (some api.fresh) (isBootcode s w).world).world.inbound).2).1.elim
            DcCodeBankInfo.clear DcCodeBankInfo.init
      ∧ (getBootCodeInfo api s bcInfo w).ret.1 = (getBootCodeInfo api s bcInfo w).ret.2.isOk := by
  unfold getBootCodeInfo
  simp only [hboot, Bool.not_true, Bool.false_eq_true, if_false, (isBootcode_world s w).2.2,
    wait_arm, World.dataOutThrottled]
  generalize identify api s (some api.fresh) (isBootcode s w).world = i
  rcases h0 : awaitMatch (pat RESPONCE_BANK_INFO_ANY) 500 i.world.inbound with ⟨o0, rest0⟩
  cases o0 with
  | none =>
    simp only [h0, Bool.not_false, if_true]
    rw [wait_arm]
    simp only
    rcases h1 : awaitMatch (pat RESPONCE_BANK_INFO_ANY) 500 rest0 with ⟨o1, rest1⟩
    cases o1 with
    | none => simp [h1, DcBootCodeInfo.setBank]
    | some m1 => simp [h1, DcBootCodeInfo.setBank, DcMidiTrigger.dequeue]
  | some m0 =>
    simp only [h0, Bool.not_true, Bool.false_eq_true, if_false, DcMidiTrigger.dequeue]
    rw [wait_empty _ rfl]
    simp only
    rcases h1 : awaitMatch (pat RESPONCE_BANK_INFO_ANY) 500 rest0 with ⟨o1, rest1⟩
    cases o1 with
    | none => simp [h1, DcBootCodeInfo.setBank]
    | some m1 => simp [h1, DcBootCodeInfo.setBank, DcMidiTrigger.dequeue]

/-- C14, at two devices: one sends its bank-0 reply only after the wait for bank 0 has run out,
and the info stored for bank 1 is decoded from that reply, whose byte 5 is 0x08; the other
reports bank 0 validly with a size field of eight nibbles 0xF and bank 1 as invalid, and the
call returns false although bank 0 decoded validly. -/
theorem getBootCodeInfo_takes_any_bank_reply :
    (getBootCodeInfo sampleApi sampleSession {} worldLateBank0Reply).ret.2.bank0
        = DcCodeBankInfo.clear
      ∧ (getBootCodeInfo sampleApi sampleSession {} worldLateBank0Reply).ret.2.bank1
        = DcCodeBankInfo.init (DcMidiData.ofHex
            "F0 00 01 55 42 08 31 32 33 34 00 00 00 01 02 03 04 05 01 F7")
      ∧ (getBootCodeInfo sampleApi sampleSession {} worldLateBank0Reply).ret.2.bank1.valid = true
      ∧ (DcMidiData.ofHex
            "F0 00 01 55 42 08 31 32 33 34 00 00 00 01 02 03 04 05 01 F7").getD 5 0 = 0x08
      ∧ (getBootCodeInfo sampleApi sampleSession {} worldBankSizeAllOnes).ret.2.bank0.valid = true
      ∧ (getBootCodeInfo sampleApi sampleSession {} worldBankSizeAllOnes).ret.1 = false := by
  decide

/-- C14, as the code has it: when isBootcode succeeds, getBootCodeInfo hands to the outbound port
the probe, the identity request, the bank-0 query and then the bank-1 query, whatever the
outcome of the bank-0 wait; a bank whose wait of 500 ms ends without a message matching
"F0 00 01 55 42 0[89] .. .." is stored as the cleared info (valid = false, size = 0xFFFFFFFF,
empty version, inactive); otherwise it is decoded from the first such message of its wait,
whose byte 5 is 0x08 or 0x09, whichever of the two queries it answers; when the call returns
true a bank decoded validly, and when a bank decoded validly with a size other than
0xFFFFFFFF the call returns true. -/
theorem getBootCodeInfo_queries_both_banks (api : IdentApi) (s : DcBootControl)
    (bcInfo : DcBootCodeInfo) (w : World) (hboot : (isBootcode s w).ret = true) :
    (getBootCodeInfo api s bcInfo w).world.sent
        = w.sent ++ [DcMidiData.ofHex CMD_GET_BANK0_INFO, DcMidiData.ofHex "F0 7E 7F 06 01 F7",
            DcMidiData.ofHex CMD_GET_BANK0_INFO, DcMidiData.ofHex CMD_GET_BANK1_INFO]
      ∧ (getBootCodeInfo api s bcInfo w).ret.2.bank0
        = (awaitMatch (pat RESPONCE_BANK_INFO_ANY) 500
            (identify api s (some api.fresh) (isBootcode s w).world).world.inbound).1.elim
            DcCodeBankInfo.clear DcCodeBankInfo.init
      ∧ (getBootCodeInfo api s bcInfo w).ret.2.bank1
        = (awaitMatch (pat RESPONCE_BANK_INFO_ANY) 500
            (awaitMatch (pat RESPONCE_BANK_INFO_ANY) 500
              (identify api s (some api.fresh) (isBootcode s w).world).world.inbound).2).1.elim
            DcCodeBankInfo.clear DcCodeBankInfo.init
      ∧ DcCodeBankInfo.clear = { valid := false, size := 0xFFFFFFFF, version := "", state := false }
      ∧ (∀ m : DcMidiData,
          (awaitMatch (pat RESPONCE_BANK_INFO_ANY) 500
            (identify api s (some api.fresh) (isBootcode s w).world).world.inbound).1 = some m
          ∨ (awaitMatch (pat RESPONCE_BANK_INFO_ANY) 500
            (awaitMatch (pat RESPONCE_BANK_INFO_ANY) 500
              (identify api s (some api.fresh) (isBootcode s w).world).world.inbound).2).1
              = some m →
          m.getD 5 0 = 0x08 ∨ m.getD 5 0 = 0x09)
      ∧ ((getBootCodeInfo api s bcInfo w).ret.1 = true →
          (getBootCodeInfo api s bcInfo w).ret.2.bank0.valid = true
            ∨ (getBootCodeInfo api s bcInfo w).ret.2.bank1.valid = true)
      ∧ (((getBootCodeInfo api s bcInfo w).ret.2.bank0.valid = true
            ∧ (getBootCodeInfo api s bcInfo w).ret.2.bank0.size ≠ 0xFFFFFFFF)
          ∨ ((getBootCodeInfo api s bcInfo w).ret.2.bank1.valid = true
            ∧ (getBootCodeInfo api s bcInfo w).ret.2.bank1.size ≠ 0xFFFFFFFF) →
          (getBootCodeInfo api s bcInfo w).ret.1 = true) := by
  obtain ⟨hsent, hb0, hb1, hret⟩ := getBootCodeInfo_spec api s bcInfo w hboot
  have hok : ∀ o : Option DcMidiData,
      (o.elim DcCodeBankInfo.clear DcCodeBankInfo.init).isOk = true →
      (o.elim DcCodeBankInfo.clear DcCodeBankInfo.init).valid = true := by
    intro o h
    cases o with
    | none => simp [DcCodeBankInfo.isOk, DcCodeBankInfo.clear] at h
    | some m => exact init_valid_of_isOk m h
  refine ⟨?_, hb0, hb1, rfl, ?_, ?_, ?_⟩
  · rw [hsent, (identify_effect api s (some api.fresh) (isBootcode s w).world).1,
      (isBootcode_world s w).1]
    simp
  · intro m hm
    rcases hm with hm | hm
    · exact bank_info_byte5 m (awaitMatch_match _ m _ _ hm)
    · exact bank_info_byte5 m (awaitMatch_match _ m _ _ hm)
  · intro h
    rw [hret] at h
    simp only [DcBootCodeInfo.isOk, Bool.or_eq_true] at h
    rcases h with h | h
    · right; rw [hb1] at h ⊢; exact hok _ h
    · left; rw [hb0] at h ⊢; exact hok _ h
  · intro h
    rw [hret]
    simp only [DcBootCodeInfo.isOk, Bool.or_eq_true, DcCodeBankInfo.isOk, DcCodeBankInfo.allOnes,
      bne_iff_ne]
    rcases h with h | h
    · right; exact h.2
    · left; exact h.2

/-- C14 as the code has it, on a device that reports bank 0 and stays silent on the bank-1
query: both queries are sent, bank 1 is stored as the cleared info, and the call returns
true. -/
theorem getBootCodeInfo_queries_both_banks_witness :
    (isBootcode sampleSession worldBank1Silent).ret = true
      ∧ (getBootCodeInfo sampleApi sampleSession {} worldBank1Silent).world.sent
        = [DcMidiData.ofHex "F0 00 01 55 42 08 F7", DcMidiData.ofHex "F0 7E 7F 06 01 F7",
            DcMidiData.ofHex "F0 00 01 55 42 08 F7", DcMidiData.ofHex "F0 00 01 55 42 09 F7"]
      ∧ (getBootCodeInfo sampleApi sampleSession {} worldBank1Silent).ret.2.bank1
        = DcCodeBankInfo.clear
      ∧ (getBootCodeInfo sampleApi sampleSession {} worldBank1Silent).ret.1 = true :=
  ⟨by decide,
    (getBootCodeInfo_queries_both_banks sampleApi sampleSession {} worldBank1Silent
      (by decide)).1,
    by decide, by decide⟩

/-! ## Facts about the error text -/

/-- Appending nothing. -/
theorem errorTextAppended_refl (s : DcBootControl) : ErrorTextAppended s s :=
  ⟨"", by simp⟩

/-- Appending one text. -/
theorem errorTextAppended_one (s : DcBootControl) (t : String) :
    ErrorTextAppended s (s.lastErrorMsg t) :=
  ⟨t, rfl⟩

/-- Appending twice is appending once. -/
theorem errorTextAppended_trans {a b c : DcBootControl} (h1 : ErrorTextAppended a b)
    (h2 : ErrorTextAppended b c) : ErrorTextAppended a c := by
  obtain ⟨t1, rfl⟩ := h1
  obtain ⟨t2, rfl⟩ := h2
  exact ⟨t1 ++ t2, by simp [String.append_assoc]⟩

/-- An appended text leaves the earlier error text in front. -/
theorem errorTextAppended_kept {a b : DcBootControl} (h : ErrorTextAppended a b) :
    lastErrorKept a b := by
  obtain ⟨t, rfl⟩ := h
  exact ⟨t, rfl⟩

/-- A session keeps its own error text. -/
theorem lastErrorKept_of_eq {a b : DcBootControl} (h : b = a) : lastErrorKept a b :=
  by subst h; exact errorTextAppended_kept (errorTextAppended_refl _)

/-- The call identify changes nothing of the session but, at most, appends to its error text. -/
theorem identify_appends (api : IdentApi) (s : DcBootControl) (id : Option DcMidiDevIdent)
    (w : World) : ErrorTextAppended s (identify api s id w).self := by
  unfold identify
  simp only [wait_arm, World.dataOut]
  rcases h : awaitMatch (pat (if s.blindMode then "F0 7E .. 06" else "F0 7E .. 06 02 00 01 55"))
      3000 w.inbound with ⟨o, rest⟩
  cases o with
  | none => simpa [h] using errorTextAppended_one s _
  | some m =>
    cases id with
    | none => simpa [h] using errorTextAppended_refl s
    | some i =>
      simp only [h, DcMidiTrigger.dequeue, if_true]
      split <;> exact errorTextAppended_refl s

/-- A failed identify appends its time-out text. -/
theorem identify_fail_text (api : IdentApi) (s : DcBootControl) (id : Option DcMidiDevIdent)
    (w : World) (hf : (identify api s id w).ret.1 = false) :
    (identify api s id w).self.getLastError
      = s.getLastError ++ "Timeout waiting for identity response in BootControl" := by
  unfold identify at hf ⊢
  simp only [wait_arm, World.dataOut] at hf ⊢
  rcases h : awaitMatch (pat (if s.blindMode then "F0 7E .. 06" else "F0 7E .. 06 02 00 01 55"))
      3000 w.inbound with ⟨o, rest⟩
  cases o with
  | none => simp [h, lastErrorMsg, DcBootControl.getLastError]
  | some m =>
    exfalso
    cases id with
    | none => simp [h] at hf
    | some i =>
      simp only [h, DcMidiTrigger.dequeue, if_true] at hf
      split at hf <;> simp at hf

/-- The call makePrivateResetCmd changes nothing of the session but, at most, appends to its
error text. -/
theorem makePrivateResetCmd_appends (api : IdentApi) (s : DcBootControl) (w : World) :
    ErrorTextAppended s (makePrivateResetCmd api s w).self := by
  have h := identify_appends api s (some api.fresh) w
  unfold makePrivateResetCmd
  dsimp only
  split <;> exact h

/-- The call privateReset changes nothing of the session but, at most, appends to its error
text. -/
theorem privateReset_appends (api : IdentApi) (s : DcBootControl) (w : World) :
    ErrorTextAppended s (privateReset api s w).self := by
  have h := makePrivateResetCmd_appends api s w
  unfold privateReset
  dsimp only
  split <;> exact h

/-- The end of enableBootcode leaves the session as it is. -/
theorem enableBootcodeFinish_self (s : DcBootControl) (rd : DcMidiData) (w : World) :
    (enableBootcodeFinish s rd w).self = s := by
  unfold enableBootcodeFinish
  dsimp only
  split_ifs <;> rfl

/-- The call enableBootcode changes nothing of the session but, at most, appends to its error
text. -/
theorem enableBootcode_appends (api : IdentApi) (s : DcBootControl) (w : World) :
    ErrorTextAppended s (enableBootcode api s w).self := by
  have h := makePrivateResetCmd_appends api s (isBootcode s w).world
  unfold enableBootcode
  simp only [(isBootcode_world s w).2.2]
  split
  · exact errorTextAppended_refl s
  · split
    · exact h
    · rw [enableBootcodeFinish_self]; exact h

/-- The call getBootCodeInfo changes nothing of the session but, at most, appends to its error
text. -/
theorem getBootCodeInfo_appends (api : IdentApi) (s : DcBootControl) (bcInfo : DcBootCodeInfo)
    (w : World) : ErrorTextAppended s (getBootCodeInfo api s bcInfo w).self := by
  have h := identify_appends api s (some api.fresh) (isBootcode s w).world
  unfold getBootCodeInfo
  simp only [(isBootcode_world s w).2.2]
  split
  · exact errorTextAppended_refl s
  · exact h

/-- The activate-then-deactivate sequence leaves the session as it is. -/
theorem activateSequence_self (s : DcBootControl) (a aOk d dOk : String) (w : World) :
    (activateSequence s a aOk d dOk w).self = s := by
  unfold activateSequence
  dsimp only
  split_ifs <;> rfl

/-- The call activateBank leaves the session as it is. -/
theorem activateBank_self (s : DcBootControl) (n : Int) (w : World) :
    (activateBank s n w).self = s := by
  unfold activateBank
  dsimp only
  split_ifs <;> first | rfl | (rw [activateSequence_self]; rfl)

/-- The decision of writeFirmwareUpdateMsg changes nothing of the session but, at most, appends
to its error text. -/
theorem firmwareUpdateDecide_appends (s : DcBootControl) (md : DcMidiData) (w : World) :
    ErrorTextAppended s (firmwareUpdateDecide s md w).self := by
  unfold firmwareUpdateDecide
  split_ifs
  · exact errorTextAppended_refl s
  · exact errorTextAppended_one s _
  · exact errorTextAppended_one s _
  · exact errorTextAppended_one s _

/-- The call writeFirmwareUpdateMsg changes nothing of the session but, at most, appends to its
error text. -/
theorem writeFirmwareUpdateMsg_appends (s : DcBootControl) (msg : DcMidiData) (timeOutMs : Int)
    (w : World) : ErrorTextAppended s (writeFirmwareUpdateMsg s msg timeOutMs w).self := by
  unfold writeFirmwareUpdateMsg
  simp only [wait_arm, World.dataOut]
  rcases h : awaitMatch (pat (if s.blindMode then "F0 00 01 55" else kFUResponcePattern))
      timeOutMs.toNat w.inbound with ⟨o, rest⟩
  cases o with
  | none => simpa [h] using errorTextAppended_one s _
  | some m =>
    simp only [h, DcMidiTrigger.dequeue, if_true]
    exact firmwareUpdateDecide_appends s _ _

/-- The call exitBoot leaves the session as it is. -/
theorem exitBoot_self (api : IdentApi) (s : DcBootControl) (id : Option DcMidiDevIdent)
    (w : World) : (exitBoot api s id w).self = s := by
  unfold exitBoot
  simp only [wait_arm, World.dataOut]
  rcases h : awaitMatch (pat (if s.blindMode then "F0 7E .. 06" else "F0 7E .. 06 02 00 01 55"))
      4000 w.inbound with ⟨o, rest⟩
  cases o with
  | none => simp [h]
  | some m =>
    cases id with
    | none => simp [h]
    | some i => simp [h, DcMidiTrigger.dequeue]

/-- C15: after each of identify, enableBootcode, isBootcode, getBootCodeInfo, activateBank,
writeFirmwareUpdateMsg, exitBoot, checkPid, privateReset and countResponcePattern, from every
prior state and with every argument, getLastError() is its value before the call followed by
some text (possibly none), so no call clears or replaces an earlier error text; and two
consecutive failures of identify leave the earlier text followed by both time-out messages. -/
theorem lastError_append_only (api : IdentApi) (s : DcBootControl) (w : World)
    (id : Option DcMidiDevIdent) (bcInfo : DcBootCodeInfo) (bankNumber pid timeOutMs : Int)
    (msg : DcMidiData) (cmd pattern : String) (sleepMs : Nat) :
    lastErrorKept s (identify api s id w).self
      ∧ lastErrorKept s (enableBootcode api s w).self
      ∧ lastErrorKept s (isBootcode s w).self
      ∧ lastErrorKept s (getBootCodeInfo api s bcInfo w).self
      ∧ lastErrorKept s (activateBank s bankNumber w).self
      ∧ lastErrorKept s (writeFirmwareUpdateMsg s msg timeOutMs w).self
      ∧ lastErrorKept s (exitBoot api s id w).self
      ∧ lastErrorKept s (checkPid s pid w).self
      ∧ lastErrorKept s (privateReset api s w).self
      ∧ lastErrorKept s (countResponcePattern s cmd pattern sleepMs w).self
      ∧ ((identify api s id w).ret.1 = false →
          (identify api (identify api s id w).self id (identify api s id w).world).ret.1 = false →
          (identify api (identify api s id w).self id
              (identify api s id w).world).self.getLastError
            = s.getLastError ++ "Timeout waiting for identity response in BootControl"
                ++ "Timeout waiting for identity response in BootControl") := by
  refine ⟨errorTextAppended_kept (identify_appends api s id w),
    errorTextAppended_kept (enableBootcode_appends api s w),
    lastErrorKept_of_eq rfl, errorTextAppended_kept (getBootCodeInfo_appends api s bcInfo w),
    lastErrorKept_of_eq (activateBank_self s bankNumber w),
    errorTextAppended_kept (writeFirmwareUpdateMsg_appends s msg timeOutMs w),
    lastErrorKept_of_eq (exitBoot_self api s id w), lastErrorKept_of_eq rfl,
    errorTextAppended_kept (privateReset_appends api s w), lastErrorKept_of_eq rfl, ?_⟩
  intro h1 h2
  rw [identify_fail_text api _ id _ h2, identify_fail_text api s id w h1]

/-- C15, on a device that never answers: two consecutive calls of identify fail and leave both
time-out messages behind the earlier error text. -/
theorem lastError_append_only_witness :
    (identify sampleApi sampleSession none (worldWith [])).ret.1 = false
      ∧ (identify sampleApi (identify sampleApi sampleSession none (worldWith [])).self none
          (identify sampleApi sampleSession none (worldWith [])).world).ret.1 = false
      ∧ (identify sampleApi (identify sampleApi sampleSession none (worldWith [])).self none
          (identify sampleApi sampleSession none (worldWith [])).world).self.getLastError
        = sampleSession.getLastError ++ "Timeout waiting for identity response in BootControl"
            ++ "Timeout waiting for identity response in BootControl" :=
  ⟨by decide, by decide,
    (lastError_append_only sampleApi sampleSession (worldWith []) none {} 0 0 0 [] "" "" 0).2.2.2.2.2.2.2.2.2.2
      (by decide) (by decide)⟩

end Spl
